import Mathlib

/-
Verification of the Airzone Cloud client data model, covering the entity
update/merge protocol of `aioairzone_cloud/device.py` and
`aioairzone_cloud/air_quality.py`.

JSON payload values are embedded as the inductive `Value`; Python `None` is
`Value.vnull`, floats are embedded as rationals (only parsed and stored, never
computed with).  Python's in-place mutation with possible exceptions is
embedded as state-passing: an operation returns the (possibly partially
updated) state together with `Option PyErr`, where `some e` means the Python
call raised exception `e` after performing the updates made so far.
-/

/-- A JSON-ish Python runtime value as found in an update payload. -/
inductive Value where
  | vnull : Value
  | vbool : Bool → Value
  | vint : Int → Value
  | vfloat : Rat → Value
  | vstr : String → Value
  | vlist : List Value → Value
  | vdict : List (String × Value) → Value

/-- Kinds of Python exceptions the embedded code can raise. -/
inductive PyErr where
  | keyError
  | typeError
  | valueError
  | attributeError
  | nameError
deriving DecidableEq

/-- Modelled from the spec: `OperationMode` is "an enumeration of valid HVAC
operating modes (e.g., stop, auto, cooling, heating, fan, dry, ventilation)".
The `common` module defining it is not under `src/`. -/
inductive OperationMode where
  | stop
  | auto
  | cooling
  | heating
  | fan
  | dry
  | ventilation
deriving DecidableEq

/-- Modelled from the spec: constructing an `OperationMode` from a raw payload
value; "unrecognized raw values fail parsing (construction raises/returns
error) rather than being silently stored".  The concrete integer coding is not
fixed by the spec; a fixed arbitrary coding 0..6 is used.  `none` means the
Python `OperationMode(...)` call raises `ValueError`. -/
def OperationMode.ofRaw : Value → Option OperationMode
  | Value.vint 0 => some OperationMode.stop
  | Value.vint 1 => some OperationMode.auto
  | Value.vint 2 => some OperationMode.cooling
  | Value.vint 3 => some OperationMode.heating
  | Value.vint 4 => some OperationMode.fan
  | Value.vint 5 => some OperationMode.dry
  | Value.vint 6 => some OperationMode.ventilation
  | _ => none

/-- Lookup in an association list by key equality (Python `dict` access; JSON
objects have unique keys). -/
def assocGet (m : List (String × Value)) (k : String) : Option Value :=
  match m with
  | [] => none
  | (k', v) :: rest => if k' = k then some v else assocGet rest k

/-- Python `d.get(k)` followed by the idiomatic `is not None` test: a missing
key and a stored `None` are indistinguishable, so both collapse to `none`. -/
def dGet (m : List (String × Value)) (k : String) : Option Value :=
  match assocGet m k with
  | some Value.vnull => none
  | some v => some v
  | none => none

/-- Python truthiness (`or {}` in `Device.sub_data` keeps only truthy values). -/
def pyTruthy : Value → Bool
  | Value.vnull => false
  | Value.vbool b => b
  | Value.vint n => if n = 0 then false else true
  | Value.vfloat q => if q = 0 then false else true
  | Value.vstr s => !s.isEmpty
  | Value.vlist xs => !xs.isEmpty
  | Value.vdict m => !m.isEmpty

/-- Python iteration (`for x in v` / `len(v)`): lists yield their elements,
strings their characters, dicts their keys; other values raise `TypeError`
(modelled as `none`). -/
def pyIter : Value → Option (List Value)
  | Value.vlist xs => some xs
  | Value.vstr s => some (s.toList.map (fun c => Value.vstr (String.mk [c])))
  | Value.vdict m => some (m.map (fun p => Value.vstr p.1))
  | _ => none

/-- Python `k in v` (membership test): key lookup for dicts, substring test for
strings, element equality for lists; `none` models `TypeError`. -/
def pyContainsKey (v : Value) (k : String) : Option Bool :=
  match v with
  | Value.vdict m => some (assocGet m k).isSome
  | Value.vstr s => some (decide (List.IsInfix k.toList s.toList))
  | Value.vlist xs =>
      some (xs.any (fun x => match x with | Value.vstr t => t = k | _ => false))
  | _ => none

/-- Decimal digits to a number (structural recursion over the character
list). -/
def digitsToNat? (cs : List Char) : Option Nat :=
  if cs.isEmpty then none
  else if cs.all Char.isDigit then
    some (cs.foldl (fun n c => n * 10 + (c.toNat - 48)) 0)
  else none

/-- Python `int(str)` on a string: optional sign followed by decimal digits,
else `ValueError`. -/
def pyStrToInt (s : String) : Option Int :=
  match s.toList with
  | '-' :: rest => (digitsToNat? rest).map (fun n => -(n : Int))
  | cs => (digitsToNat? cs).map (fun n => (n : Int))

/-- Python `int(v)`: ints pass through, bools coerce, floats truncate toward
zero, integer-shaped strings parse; `none` models `ValueError`/`TypeError`. -/
def pyToInt : Value → Option Int
  | Value.vint n => some n
  | Value.vbool b => some (if b then 1 else 0)
  | Value.vfloat q => some (if q < 0 then Rat.ceil q else Rat.floor q)
  | Value.vstr s => pyStrToInt s
  | _ => none

/-- Python `str(v)` (total).  Container renderings are representative only;
the code applies this to the payload device id. -/
def pyStr : Value → String
  | Value.vnull => "None"
  | Value.vbool b => if b then "True" else "False"
  | Value.vint n => toString n
  | Value.vfloat q => toString q
  | Value.vstr s => s
  | Value.vlist _ => "[...]"
  | Value.vdict _ => "{...}"

/-- Modelled from the spec: `parseBool` from the missing `common` module;
"values that are already the target type pass through; compatible
representations are coerced; anything else yields absent", never raises. -/
def parse_bool (o : Option Value) : Option Bool :=
  match o with
  | some (Value.vbool b) => some b
  | some (Value.vint 0) => some false
  | some (Value.vint 1) => some true
  | some (Value.vstr "true") => some true
  | some (Value.vstr "false") => some false
  | _ => none

/-- Modelled from the spec: `parseInt` from the missing `common` module;
target type passes through, compatible representations (numeric string,
float) are coerced, anything else yields absent, never raises. -/
def parse_int (o : Option Value) : Option Int :=
  match o with
  | some v => pyToInt v
  | none => none

/-- Modelled from the spec: `parseFloat` from the missing `common` module;
floats and ints pass through, integer-shaped strings are coerced
(fractional strings are not modelled), anything else yields absent. -/
def parse_float (o : Option Value) : Option Rat :=
  match o with
  | some (Value.vfloat q) => some q
  | some (Value.vint n) => some (n : Rat)
  | some (Value.vstr s) => (pyStrToInt s).map (fun n => (n : Rat))
  | _ => none

/-- Modelled from the spec: `parseStr` from the missing `common` module;
strings pass through, scalar ints/bools are coerced to their Python string
form, anything else yields absent. -/
def parse_str (o : Option Value) : Option String :=
  match o with
  | some (Value.vstr s) => some s
  | some (Value.vint n) => some (toString n)
  | some (Value.vbool b) => some (if b then "True" else "False")
  | _ => none

/-- The merge idiom `x = parse(...); if x is not None: self.f = x`: keep the
parsed value when present, else retain the prior attribute value. -/
def keepSome {α : Type} (new : Option α) (old : Option α) : Option α :=
  match new with
  | some v => some v
  | none => old

/-
Modelled from the spec: the vendor API key constants live in the repository's
`const` module, which is not under `src/`.  The spec fixes the spellings
`"systemNumber"`, `"zoneNumber"`, `"meta"`, `"config"`, `"name"` and
`"errors"`; the remaining keys are represented by fixed distinct strings.
-/

def API_AQ_ACTIVE : String := "aqActive"
def API_AQ_PM_1 : String := "aqPm1"
def API_AQ_PM_2P5 : String := "aqPm2p5"
def API_AQ_PM_10 : String := "aqPm10"
def API_AQ_CO2 : String := "aqCo2"
def API_AQ_TVOC : String := "aqTvoc"
def API_AQ_HUMIDITY : String := "aqHumidity"
def API_AQ_TEMP : String := "aqTemp"
def API_AQ_TEMP_CELSIUS : String := "celsius"
def API_AQ_PRESSURE : String := "aqPressure"
def API_AQ_PRESENT : String := "aqPresent"
def API_AQ_VENT_ACTIVE : String := "aqVentActive"
def API_AQ_QUALITY : String := "aqQuality"
def API_AQ_SCORE : String := "aqScore"
def API_AQ_SENSOR_FW : String := "aqSensorFw"
def API_AUTO_MODE : String := "autoMode"
def API_CONFIG : String := "config"
def API_DEVICE_ID : String := "deviceId"
def API_DOUBLE_SET_POINT : String := "doubleSetPoint"
def API_DUAL_SP_CONF : String := "dualSpConf"
def API_ERRORS : String := "errors"
def API_IS_CONNECTED : String := "isConnected"
def API_META : String := "meta"
def API_MODE : String := "mode"
def API_MODE_AVAIL : String := "modeAvail"
def API_NAME : String := "name"
def API_SIMULATOR_MODE : String := "simulatorMode"
def API_SYSTEM_NUMBER : String := "systemNumber"
def API_WARNINGS : String := "warnings"
def API_WS_CONNECTED : String := "wsConnected"
def API_ZONE_NUMBER : String := "zoneNumber"

/-- Modelled from the spec: the fixed quality-level lookup table
`API_AQ_QUALITY_LEVELS` from the missing `const` module, mapping "a small
closed set of raw vendor level codes to human-readable level names". -/
def API_AQ_QUALITY_LEVELS : List (String × String) :=
  [("good", "Good"), ("regular", "Regular"), ("bad", "Bad")]

/-- Modelled from the spec: the `EntityUpdate` envelope from the missing
`entity` module, an "opaque carrier exposing `getData() -> mapping`". -/
structure EntityUpdate where
  raw : List (String × Value)

/-- `EntityUpdate.get_data`: returns the raw fragment for one entity. -/
def EntityUpdate.get_data (u : EntityUpdate) : List (String × Value) := u.raw

/-- The attached `AirQuality` entity as seen through `Device.air_quality`:
the association is a plain reference, and the delegating `get_aq_*` accessors
read exactly these attributes of the referenced instance (device.py
lines 218-291, air_quality.py lines 153-223). -/
structure AQView where
  aq_active : Option Bool
  aq_vent_active : Option Bool
  aq_pm_1 : Option Int
  aq_pm_2p5 : Option Int
  aq_pm_10 : Option Int
  aq_co2 : Option Int
  aq_tvoc : Option Int
  aq_humidity : Option Int
  aq_temp : Option Rat
  aq_pressure : Option Value
  aq_present : Option Bool
  aq_quality : Option String
  aq_score : Option String

/-- The mutable state of a `Device` (device.py lines 78-112).  `aq_score` is
declared `int | None` in the source but is only ever written with a
`parse_str` result (line 429), so it is embedded as `Option String`;
`errors`/`warnings` receive raw payload items (lines 445-449, 465-469). -/
@[ext]
structure DeviceState where
  air_quality : Option AQView
  auto_mode : Option OperationMode
  aq_active : Option Bool
  aq_pm_1 : Option Int
  aq_pm_2p5 : Option Int
  aq_pm_10 : Option Int
  aq_co2 : Option Int
  aq_tvoc : Option Int
  aq_humidity : Option Int
  aq_temp : Option Rat
  aq_present : Option Bool
  aq_quality : Option String
  aq_score : Option String
  double_set_point : Option Bool
  dual_sp_conf : Option Bool
  errors : List Value
  id : String
  installation_id : String
  mode : Option OperationMode
  modes : List OperationMode
  name : String
  simulator_mode : Option Bool
  warnings : List Value
  webserver_id : String
  ws_connected : Bool
  is_connected : Bool

/-- The mutable state of an `AirQuality` device (air_quality.py lines 59-88):
the inherited `Device` state plus the air-quality-specific additions.
`systems`/`zones` hold the ids of the associated (out-of-scope) System/Zone
objects. -/
@[ext]
structure AirQualityState where
  dev : DeviceState
  aq_sensor_fw : Option String
  systems : List String
  zones : List String
  aq_vent_active : Option Bool
  aq_pressure : Option Value
  system_number : Int
  zone_number : Int

/-- `Device.get_aq_active` (device.py lines 218-222). -/
def Device.get_aq_active (s : DeviceState) : Option Bool :=
  match s.air_quality with
  | some aq => aq.aq_active
  | none => s.aq_active

/-- `Device.get_aq_quality` (device.py lines 224-228). -/
def Device.get_aq_quality (s : DeviceState) : Option String :=
  match s.air_quality with
  | some aq => aq.aq_quality
  | none => s.aq_quality

/-- `Device.get_aq_score` (device.py lines 239-243). -/
def Device.get_aq_score (s : DeviceState) : Option String :=
  match s.air_quality with
  | some aq => aq.aq_score
  | none => s.aq_score

/-- `Device.get_aq_pm_1` (device.py lines 245-249). -/
def Device.get_aq_pm_1 (s : DeviceState) : Option Int :=
  match s.air_quality with
  | some aq => aq.aq_pm_1
  | none => s.aq_pm_1

/-- `Device.get_aq_pm_2p5` (device.py lines 251-255). -/
def Device.get_aq_pm_2p5 (s : DeviceState) : Option Int :=
  match s.air_quality with
  | some aq => aq.aq_pm_2p5
  | none => s.aq_pm_2p5

/-- `Device.get_aq_pm_10` (device.py lines 257-261). -/
def Device.get_aq_pm_10 (s : DeviceState) : Option Int :=
  match s.air_quality with
  | some aq => aq.aq_pm_10
  | none => s.aq_pm_10

/-- `Device.get_aq_co2` (device.py lines 263-267). -/
def Device.get_aq_co2 (s : DeviceState) : Option Int :=
  match s.air_quality with
  | some aq => aq.aq_co2
  | none => s.aq_co2

/-- `Device.get_aq_tvoc` (device.py lines 269-273). -/
def Device.get_aq_tvoc (s : DeviceState) : Option Int :=
  match s.air_quality with
  | some aq => aq.aq_tvoc
  | none => s.aq_tvoc

/-- `Device.get_aq_temp` (device.py lines 275-279). -/
def Device.get_aq_temp (s : DeviceState) : Option Rat :=
  match s.air_quality with
  | some aq => aq.aq_temp
  | none => s.aq_temp

/-- `Device.get_aq_humidity` (device.py lines 281-285). -/
def Device.get_aq_humidity (s : DeviceState) : Option Int :=
  match s.air_quality with
  | some aq => aq.aq_humidity
  | none => s.aq_humidity

/-- `Device.get_aq_present` (device.py lines 287-291). -/
def Device.get_aq_present (s : DeviceState) : Option Bool :=
  match s.air_quality with
  | some aq => aq.aq_present
  | none => s.aq_present

/-- `Device.get_available` (device.py lines 293-295). -/
def Device.get_available (s : DeviceState) : Bool :=
  s.is_connected && s.ws_connected

/-- `Device.get_double_set_point` (device.py lines 297-301). -/
def Device.get_double_set_point (s : DeviceState) : Bool :=
  match s.double_set_point with
  | some b => b
  | none => false

/-- `Device.get_dual_sp_conf` (device.py lines 303-305). -/
def Device.get_dual_sp_conf (s : DeviceState) : Option Bool := s.dual_sp_conf

/-- `Device.get_errors` (device.py lines 307-309). -/
def Device.get_errors (s : DeviceState) : List Value := s.errors

/-- `Device.get_id` (device.py lines 311-313). -/
def Device.get_id (s : DeviceState) : String := s.id

/-- `Device.get_installation` (device.py lines 315-317). -/
def Device.get_installation (s : DeviceState) : String := s.installation_id

/-- `Device.get_is_connected` (device.py lines 319-321). -/
def Device.get_is_connected (s : DeviceState) : Bool := s.is_connected

/-- `Device.get_mode` (device.py lines 323-325). -/
def Device.get_mode (s : DeviceState) : Option OperationMode := s.mode

/-- `Device.get_mode_auto` (device.py lines 327-329). -/
def Device.get_mode_auto (s : DeviceState) : Option OperationMode := s.auto_mode

/-- `Device.get_modes` (device.py lines 331-335). -/
def Device.get_modes (s : DeviceState) : Option (List OperationMode) :=
  if s.modes.length > 0 then some s.modes else none

/-- `Device.get_name` (device.py lines 337-339). -/
def Device.get_name (s : DeviceState) : String := s.name

/-- `Device.get_problems` (device.py lines 341-343): Python `bool(list)` is
list non-emptiness. -/
def Device.get_problems (s : DeviceState) : Bool :=
  !s.errors.isEmpty || !s.warnings.isEmpty

/-- `Device.get_simulator_mode` (device.py lines 345-347). -/
def Device.get_simulator_mode (s : DeviceState) : Option Bool := s.simulator_mode

/-- `Device.get_warnings` (device.py lines 349-351). -/
def Device.get_warnings (s : DeviceState) : List Value := s.warnings

/-- `Device.get_webserver` (device.py lines 353-355). -/
def Device.get_webserver (s : DeviceState) : String := s.webserver_id

/-- `Device.get_ws_connected` (device.py lines 357-359). -/
def Device.get_ws_connected (s : DeviceState) : Bool := s.ws_connected

/-- `Device.set_air_quality` (device.py lines 361-363). -/
def Device.set_air_quality (s : DeviceState) (aq : AQView) : DeviceState :=
  { s with air_quality := some aq }

/-- `Device.set_mode` (device.py lines 365-371), called with an
`OperationMode` member (on a member, the Python `OperationMode(mode)`
re-construction at line 367 returns it unchanged and cannot raise).  If the
mode is not in `self.modes` the assignment is skipped and only a diagnostic is
logged; no exception reaches the caller. -/
def Device.set_mode (s : DeviceState) (mode : OperationMode) : DeviceState :=
  if mode ∈ s.modes then { s with mode := some mode } else s

/-- Python `v[k]` subscript access: key lookup on dicts (`KeyError` when
missing), `TypeError` on non-dicts. -/
def pySubscript (v : Value) (k : String) : Except PyErr Value :=
  match v with
  | Value.vdict m =>
    match assocGet m k with
    | some x => Except.ok x
    | none => Except.error PyErr.keyError
  | _ => Except.error PyErr.typeError

/-- Second half of `Device.sub_data` (device.py lines 121-126): probe the
`"config"` sub-object, else fall back to the top-level mapping. -/
def Device.sub_data_from_config (device_data : List (String × Value)) : Except PyErr Value :=
  match assocGet device_data API_CONFIG with
  | some v =>
    let config := if pyTruthy v then v else Value.vdict []
    match pyContainsKey config API_SYSTEM_NUMBER with
    | none => Except.error PyErr.typeError
    | some true => Except.ok config
    | some false => Except.ok (Value.vdict device_data)
  | none => Except.ok (Value.vdict device_data)

/-- `Device.sub_data` (device.py lines 114-126): probe a `"meta"` sub-object
(`device_data.get(API_META) or {}` replaces falsy values by the empty dict),
else a `"config"` sub-object, else the top-level mapping; the first location
containing the system-number key wins.  The Python `in` test raises
`TypeError` when the kept value is a truthy non-container. -/
def Device.sub_data (device_data : List (String × Value)) : Except PyErr Value :=
  match assocGet device_data API_META with
  | some v =>
    let meta := if pyTruthy v then v else Value.vdict []
    match pyContainsKey meta API_SYSTEM_NUMBER with
    | none => Except.error PyErr.typeError
    | some true => Except.ok meta
    | some false => Device.sub_data_from_config device_data
  | none => Device.sub_data_from_config device_data

/-- `Device.__init__` (device.py lines 78-112).  `device_data[API_DEVICE_ID]`
is a subscript, so a payload without the device-id key raises `KeyError` and
construction fails (spec section 7: "construction fails hard"). -/
def Device.init (inst_id ws_id : String) (device_data : List (String × Value)) :
    Except PyErr DeviceState :=
  match assocGet device_data API_DEVICE_ID with
  | none => Except.error PyErr.keyError
  | some idv =>
    Except.ok
      { air_quality := none
        auto_mode := none
        aq_active := none
        aq_pm_1 := none
        aq_pm_2p5 := none
        aq_pm_10 := none
        aq_co2 := none
        aq_tvoc := none
        aq_humidity := none
        aq_temp := none
        aq_present := none
        aq_quality := none
        aq_score := none
        double_set_point := none
        dual_sp_conf := none
        errors := []
        id := pyStr idv
        installation_id := inst_id
        mode := none
        modes := []
        name := "Device"
        simulator_mode := none
        warnings := []
        webserver_id := ws_id
        ws_connected := true
        is_connected := (parse_bool (dGet device_data API_IS_CONNECTED)).getD true }

/-- `AirQuality.__init__` (air_quality.py lines 59-88): run the `Device`
constructor, re-initialise the air-quality attributes, parse
`system_number`/`zone_number` through `sub_data` with Python `int(...)`
(subscript plus conversion, both of which can raise), then default the name
to `"Air Quality {system_number}:{zone_number}"` when the payload name is
absent. -/
def AirQuality.init (inst_id ws_id : String) (device_data : List (String × Value)) :
    Except PyErr AirQualityState :=
  match Device.init inst_id ws_id device_data with
  | Except.error e => Except.error e
  | Except.ok dev0 =>
    let dev := { dev0 with
                  aq_pm_1 := none, aq_pm_2p5 := none, aq_pm_10 := none,
                  aq_co2 := none, aq_tvoc := none, aq_humidity := none,
                  aq_temp := none, aq_present := none, aq_quality := none,
                  aq_score := none }
    match Device.sub_data device_data with
    | Except.error e => Except.error e
    | Except.ok sd =>
      match pySubscript sd API_SYSTEM_NUMBER with
      | Except.error e => Except.error e
      | Except.ok snv =>
        match pyToInt snv with
        | none => Except.error PyErr.valueError
        | some system_number =>
          match pySubscript sd API_ZONE_NUMBER with
          | Except.error e => Except.error e
          | Except.ok znv =>
            match pyToInt znv with
            | none => Except.error PyErr.valueError
            | some zone_number =>
              let nm :=
                match parse_str (dGet device_data API_NAME) with
                | some n => n
                | none =>
                    "Air Quality " ++ toString system_number ++ ":" ++
                      toString zone_number
              Except.ok
                { dev := { dev with name := nm }
                  aq_sensor_fw := none
                  systems := []
                  zones := []
                  aq_vent_active := none
                  aq_pressure := none
                  system_number := system_number
                  zone_number := zone_number }

/-
`Device.update_data` (device.py lines 377-469), split into segments at the
statements that can raise.  Each segment returns the updated state together
with `Option PyErr`; `some e` means the Python method raised `e` after
performing the field writes made so far (in-place mutation).
-/

/-- `Device.update_data`, lines 461-469: `simulator_mode`, then `warnings`
(`self.warnings = []` runs before the iteration, so a present non-iterable
value clears the list and then raises `TypeError`). -/
def Device.updSeg6 (d : List (String × Value)) (s : DeviceState) :
    DeviceState × Option PyErr :=
  let s := { s with simulator_mode :=
              keepSome (parse_bool (dGet d API_SIMULATOR_MODE)) s.simulator_mode }
  match dGet d API_WARNINGS with
  | none => (s, none)
  | some v =>
    match pyIter v with
    | some xs => ({ s with warnings := xs }, none)
    | none => ({ s with warnings := [] }, some PyErr.typeError)

/-- `Device.update_data`, lines 454-459: `mode_avail` — replaced only when the
key is present AND `len(mode_avail) > 0`; `len` raises `TypeError` on a
non-iterable, `OperationMode(mode)` raises `ValueError` on an unknown member
(the partially built local list is discarded). -/
def Device.updSeg5 (d : List (String × Value)) (s : DeviceState) :
    DeviceState × Option PyErr :=
  match dGet d API_MODE_AVAIL with
  | none => Device.updSeg6 d s
  | some v =>
    match pyIter v with
    | none => (s, some PyErr.typeError)
    | some xs =>
      if xs.length > 0 then
        match xs.mapM OperationMode.ofRaw with
        | some ms => Device.updSeg6 d { s with modes := ms }
        | none => (s, some PyErr.valueError)
      else Device.updSeg6 d s

/-- `Device.update_data`, lines 451-453: the current mode is written through
`OperationMode(mode)` without any membership check against `modes`. -/
def Device.updSeg4 (d : List (String × Value)) (s : DeviceState) :
    DeviceState × Option PyErr :=
  match dGet d API_MODE with
  | none => Device.updSeg5 d s
  | some v =>
    match OperationMode.ofRaw v with
    | some m => Device.updSeg5 d { s with mode := some m }
    | none => (s, some PyErr.valueError)

/-- `Device.update_data`, lines 437-449: `double_set_point`, `dual_sp_conf`,
then `errors` (cleared before the element-by-element extension). -/
def Device.updSeg3 (d : List (String × Value)) (s : DeviceState) :
    DeviceState × Option PyErr :=
  let s := { s with double_set_point :=
              keepSome (parse_bool (dGet d API_DOUBLE_SET_POINT)) s.double_set_point }
  let s := { s with dual_sp_conf :=
              keepSome (parse_bool (dGet d API_DUAL_SP_CONF)) s.dual_sp_conf }
  match dGet d API_ERRORS with
  | none => Device.updSeg4 d s
  | some v =>
    match pyIter v with
    | some xs => Device.updSeg4 d { s with errors := xs }
    | none => ({ s with errors := [] }, some PyErr.typeError)

/-- `Device.update_data`, lines 421-435: `aq_present`, `aq_quality`,
`aq_score` (the source parses the score with `parse_str`), then `auto_mode`
through the raising `OperationMode(auto_mode)` constructor. -/
def Device.updSeg2 (d : List (String × Value)) (s : DeviceState) :
    DeviceState × Option PyErr :=
  let s := { s with aq_present :=
              keepSome (parse_bool (dGet d API_AQ_PRESENT)) s.aq_present }
  let s := { s with aq_quality :=
              keepSome (parse_str (dGet d API_AQ_QUALITY)) s.aq_quality }
  let s := { s with aq_score :=
              keepSome (parse_str (dGet d API_AQ_SCORE)) s.aq_score }
  match dGet d API_AUTO_MODE with
  | none => Device.updSeg3 d s
  | some v =>
    match OperationMode.ofRaw v with
    | some m => Device.updSeg3 d { s with auto_mode := some m }
    | none => (s, some PyErr.valueError)

/-- `Device.update_data` body (device.py lines 377-469), applied to the raw
mapping of the envelope.  Lines 381-414 are the nine leading parser-guarded
scalar fields; lines 416-419 are the nested temperature: when the key holds a
value, `aq_temp.get(API_AQ_TEMP_CELSIUS)` raises `AttributeError` unless the
value is a mapping, and on a mapping the float-parse result is assigned
unconditionally (also when it is absent). -/
def Device.applyUpdate (d : List (String × Value)) (s : DeviceState) :
    DeviceState × Option PyErr :=
  let s := { s with is_connected :=
              (parse_bool (dGet d API_IS_CONNECTED)).getD s.is_connected }
  let s := { s with ws_connected :=
              (parse_bool (dGet d API_WS_CONNECTED)).getD s.ws_connected }
  let s := { s with aq_active :=
              keepSome (parse_bool (dGet d API_AQ_ACTIVE)) s.aq_active }
  let s := { s with aq_pm_1 :=
              keepSome (parse_int (dGet d API_AQ_PM_1)) s.aq_pm_1 }
  let s := { s with aq_pm_2p5 :=
              keepSome (parse_int (dGet d API_AQ_PM_2P5)) s.aq_pm_2p5 }
  let s := { s with aq_pm_10 :=
              keepSome (parse_int (dGet d API_AQ_PM_10)) s.aq_pm_10 }
  let s := { s with aq_co2 :=
              keepSome (parse_int (dGet d API_AQ_CO2)) s.aq_co2 }
  let s := { s with aq_tvoc :=
              keepSome (parse_int (dGet d API_AQ_TVOC)) s.aq_tvoc }
  let s := { s with aq_humidity :=
              keepSome (parse_int (dGet d API_AQ_HUMIDITY)) s.aq_humidity }
  match dGet d API_AQ_TEMP with
  | none => Device.updSeg2 d s
  | some v =>
    match v with
    | Value.vdict m =>
        Device.updSeg2 d
          { s with aq_temp := parse_float (dGet m API_AQ_TEMP_CELSIUS) }
    | _ => (s, some PyErr.attributeError)

/-- `Device.update_data(self, update)` (device.py line 377): fetch the raw
mapping from the envelope and merge it. -/
def Device.update_data (s : DeviceState) (update : EntityUpdate) :
    DeviceState × Option PyErr :=
  Device.applyUpdate update.get_data s

/-- `AirQuality.update_data`, lines 291-309: `aq_pressure` stores the raw
value unparsed, then `aq_present`, `aq_quality`, `aq_score` (via `parse_str`)
and `aq_sensor_fw`. -/
def AirQuality.updSeg2 (d : List (String × Value)) (a : AirQualityState) :
    AirQualityState × Option PyErr :=
  let a := match dGet d API_AQ_PRESSURE with
           | some v => { a with aq_pressure := some v }
           | none => a
  let a := { a with dev := { a.dev with aq_present := keepSome (parse_bool (dGet d API_AQ_PRESENT)) a.dev.aq_present } }
  let a := { a with dev := { a.dev with aq_quality := keepSome (parse_str (dGet d API_AQ_QUALITY)) a.dev.aq_quality } }
  let a := { a with dev := { a.dev with aq_score := keepSome (parse_str (dGet d API_AQ_SCORE)) a.dev.aq_score } }
  let a := { a with aq_sensor_fw :=
              keepSome (parse_str (dGet d API_AQ_SENSOR_FW)) a.aq_sensor_fw }
  (a, none)

/-- `AirQuality.update_data`, lines 258-289: `aq_vent_active`, the particulate
/gas scalars, then the nested temperature (the same pattern as the `Device`
merge, including the unconditional assignment of the float-parse result). -/
def AirQuality.updSeg1 (d : List (String × Value)) (a : AirQualityState) :
    AirQualityState × Option PyErr :=
  let a := { a with aq_vent_active :=
              keepSome (parse_bool (dGet d API_AQ_VENT_ACTIVE)) a.aq_vent_active }
  let a := { a with dev := { a.dev with aq_pm_1 := keepSome (parse_int (dGet d API_AQ_PM_1)) a.dev.aq_pm_1 } }
  let a := { a with dev := { a.dev with aq_pm_2p5 := keepSome (parse_int (dGet d API_AQ_PM_2P5)) a.dev.aq_pm_2p5 } }
  let a := { a with dev := { a.dev with aq_pm_10 := keepSome (parse_int (dGet d API_AQ_PM_10)) a.dev.aq_pm_10 } }
  let a := { a with dev := { a.dev with aq_co2 := keepSome (parse_int (dGet d API_AQ_CO2)) a.dev.aq_co2 } }
  let a := { a with dev := { a.dev with aq_tvoc := keepSome (parse_int (dGet d API_AQ_TVOC)) a.dev.aq_tvoc } }
  let a := { a with dev := { a.dev with aq_humidity := keepSome (parse_int (dGet d API_AQ_HUMIDITY)) a.dev.aq_humidity } }
  match dGet d API_AQ_TEMP with
  | none => AirQuality.updSeg2 d a
  | some v =>
    match v with
    | Value.vdict m =>
        AirQuality.updSeg2 d
          { a with dev := { a.dev with aq_temp := parse_float (dGet m API_AQ_TEMP_CELSIUS) } }
    | _ => (a, some PyErr.attributeError)

/-- `AirQuality.update_data` body (air_quality.py lines 252-309):
`super().update_data(update)` first — if it raises, the air-quality-specific
fields are not processed. -/
def AirQuality.applyUpdate (d : List (String × Value)) (a : AirQualityState) :
    AirQualityState × Option PyErr :=
  match Device.applyUpdate d a.dev with
  | (dev, some e) => ({ a with dev := dev }, some e)
  | (dev, none) => AirQuality.updSeg1 d { a with dev := dev }

/-- `AirQuality.update_data(self, update)` (air_quality.py line 252). -/
def AirQuality.update_data (a : AirQualityState) (update : EntityUpdate) :
    AirQualityState × Option PyErr :=
  AirQuality.applyUpdate update.get_data a

/-- `Device.get_aq_status` (device.py lines 230-237) under a fuel bound: the
body's first statement is the unconditional recursive call
`aq_status = self.get_aq_status()`, so the embedding evaluates the recursion
up to `fuel` unfoldings.  `none` means the call has not terminated within the
given fuel; had the recursion ever returned, the post-recursion branch would
resolve the undefined name `API_AQ_STATUS` (`NameError`, modelled in the
successor case). -/
def Device.get_aq_status_fuel (s : DeviceState) : Nat → Option (Except PyErr (Option Int))
  | 0 => none
  | n + 1 =>
    match Device.get_aq_status_fuel s n with
    | none => none
    | some (Except.error e) => some (Except.error e)
    | some (Except.ok aq_status) =>
      match aq_status with
      | some _ => some (Except.error PyErr.nameError)
      | none => some (Except.ok none)

/-
Closed-form characterization of the merge: every match scrutinee of
`Device.update_data` depends only on the payload, so the update factors into
a per-field final-value function plus a payload-determined exception.  The
gate booleans record whether each raising statement passes.
-/

/-- Whether the temperature statement (lines 416-419) passes without raising:
the key is absent, or holds a mapping. -/
def Device.tOk (d : List (String × Value)) : Bool :=
  match dGet d API_AQ_TEMP with
  | none => true
  | some (Value.vdict _) => true
  | some _ => false

/-- Whether the auto-mode statement (lines 433-435) passes without raising. -/
def Device.aOk (d : List (String × Value)) : Bool :=
  match dGet d API_AUTO_MODE with
  | none => true
  | some v => (OperationMode.ofRaw v).isSome

/-- Whether the errors statement (lines 445-449) passes without raising. -/
def Device.eOk (d : List (String × Value)) : Bool :=
  match dGet d API_ERRORS with
  | none => true
  | some v => (pyIter v).isSome

/-- Whether the mode statement (lines 451-453) passes without raising. -/
def Device.mOk (d : List (String × Value)) : Bool :=
  match dGet d API_MODE with
  | none => true
  | some v => (OperationMode.ofRaw v).isSome

/-- Whether the mode-availability statement (lines 454-459) passes without
raising. -/
def Device.msOk (d : List (String × Value)) : Bool :=
  match dGet d API_MODE_AVAIL with
  | none => true
  | some v =>
    match pyIter v with
    | none => false
    | some xs =>
      if xs.length > 0 then (xs.mapM OperationMode.ofRaw).isSome else true

/-- The exception raised by a failing mode-availability statement:
`TypeError` from `len` on a non-iterable, else `ValueError` from
`OperationMode`. -/
def Device.msErr (d : List (String × Value)) : PyErr :=
  match dGet d API_MODE_AVAIL with
  | some v => if (pyIter v).isNone then PyErr.typeError else PyErr.valueError
  | none => PyErr.typeError

/-- Whether the warnings statement (lines 465-469) passes without raising. -/
def Device.wOk (d : List (String × Value)) : Bool :=
  match dGet d API_WARNINGS with
  | none => true
  | some v => (pyIter v).isSome

/-- The exception `Device.update_data` raises for a given payload (`none`
when it completes), following the statement order of lines 377-469. -/
def Device.updateErr (d : List (String × Value)) : Option PyErr :=
  if Device.tOk d then
    if Device.aOk d then
      if Device.eOk d then
        if Device.mOk d then
          if Device.msOk d then
            if Device.wOk d then none else some PyErr.typeError
          else some (Device.msErr d)
        else some PyErr.valueError
      else some PyErr.typeError
    else some PyErr.valueError
  else some PyErr.attributeError

/-- Final value of `aq_temp` as a function of the payload: a present mapping
overwrites with the float-parse of its Celsius entry (absent parse clears);
otherwise the prior value survives. -/
def Device.tempF (d : List (String × Value)) (old : Option Rat) : Option Rat :=
  match dGet d API_AQ_TEMP with
  | some (Value.vdict m) => parse_float (dGet m API_AQ_TEMP_CELSIUS)
  | some _ => old
  | none => old

/-- Final value of `auto_mode` when its statement is reached. -/
def Device.autoF (d : List (String × Value)) (old : Option OperationMode) :
    Option OperationMode :=
  match dGet d API_AUTO_MODE with
  | some v =>
    match OperationMode.ofRaw v with
    | some m => some m
    | none => old
  | none => old

/-- Final value of `errors` when its statement is reached (a present
non-iterable clears the list before the `TypeError`). -/
def Device.errF (d : List (String × Value)) (old : List Value) : List Value :=
  match dGet d API_ERRORS with
  | none => old
  | some v =>
    match pyIter v with
    | some xs => xs
    | none => []

/-- Final value of `mode` when its statement is reached. -/
def Device.modeF (d : List (String × Value)) (old : Option OperationMode) :
    Option OperationMode :=
  match dGet d API_MODE with
  | some v =>
    match OperationMode.ofRaw v with
    | some m => some m
    | none => old
  | none => old

/-- Final value of `modes` when its statement is reached: an absent key, an
empty list, or a failing element all leave the previous list in place. -/
def Device.modesF (d : List (String × Value)) (old : List OperationMode) :
    List OperationMode :=
  match dGet d API_MODE_AVAIL with
  | none => old
  | some v =>
    match pyIter v with
    | none => old
    | some xs =>
      if xs.length > 0 then
        match xs.mapM OperationMode.ofRaw with
        | some ms => ms
        | none => old
      else old

/-- Final value of `warnings` when its statement is reached. -/
def Device.warnF (d : List (String × Value)) (old : List Value) : List Value :=
  match dGet d API_WARNINGS with
  | none => old
  | some v =>
    match pyIter v with
    | some xs => xs
    | none => []

/-- The state `Device.update_data` leaves behind for a given payload,
field by field; fields whose statement is cut off by an earlier exception
keep their prior value. -/
def Device.updateSpec (d : List (String × Value)) (s : DeviceState) : DeviceState :=
  { s with
    is_connected := (parse_bool (dGet d API_IS_CONNECTED)).getD s.is_connected,
    ws_connected := (parse_bool (dGet d API_WS_CONNECTED)).getD s.ws_connected,
    aq_active := keepSome (parse_bool (dGet d API_AQ_ACTIVE)) s.aq_active,
    aq_pm_1 := keepSome (parse_int (dGet d API_AQ_PM_1)) s.aq_pm_1,
    aq_pm_2p5 := keepSome (parse_int (dGet d API_AQ_PM_2P5)) s.aq_pm_2p5,
    aq_pm_10 := keepSome (parse_int (dGet d API_AQ_PM_10)) s.aq_pm_10,
    aq_co2 := keepSome (parse_int (dGet d API_AQ_CO2)) s.aq_co2,
    aq_tvoc := keepSome (parse_int (dGet d API_AQ_TVOC)) s.aq_tvoc,
    aq_humidity := keepSome (parse_int (dGet d API_AQ_HUMIDITY)) s.aq_humidity,
    aq_temp := Device.tempF d s.aq_temp,
    aq_present :=
      if Device.tOk d then keepSome (parse_bool (dGet d API_AQ_PRESENT)) s.aq_present
      else s.aq_present,
    aq_quality :=
      if Device.tOk d then keepSome (parse_str (dGet d API_AQ_QUALITY)) s.aq_quality
      else s.aq_quality,
    aq_score :=
      if Device.tOk d then keepSome (parse_str (dGet d API_AQ_SCORE)) s.aq_score
      else s.aq_score,
    auto_mode :=
      if Device.tOk d then Device.autoF d s.auto_mode else s.auto_mode,
    double_set_point :=
      if Device.tOk d && Device.aOk d then
        keepSome (parse_bool (dGet d API_DOUBLE_SET_POINT)) s.double_set_point
      else s.double_set_point,
    dual_sp_conf :=
      if Device.tOk d && Device.aOk d then
        keepSome (parse_bool (dGet d API_DUAL_SP_CONF)) s.dual_sp_conf
      else s.dual_sp_conf,
    errors :=
      if Device.tOk d && Device.aOk d then Device.errF d s.errors else s.errors,
    mode :=
      if Device.tOk d && Device.aOk d && Device.eOk d then Device.modeF d s.mode
      else s.mode,
    modes :=
      if Device.tOk d && Device.aOk d && Device.eOk d && Device.mOk d then
        Device.modesF d s.modes
      else s.modes,
    simulator_mode :=
      if Device.tOk d && Device.aOk d && Device.eOk d && Device.mOk d && Device.msOk d then
        keepSome (parse_bool (dGet d API_SIMULATOR_MODE)) s.simulator_mode
      else s.simulator_mode,
    warnings :=
      if Device.tOk d && Device.aOk d && Device.eOk d && Device.mOk d && Device.msOk d then
        Device.warnF d s.warnings
      else s.warnings }

theorem Device.updSeg6_char (d : List (String × Value)) (s : DeviceState) :
    Device.updSeg6 d s =
      ({ s with
          simulator_mode := keepSome (parse_bool (dGet d API_SIMULATOR_MODE)) s.simulator_mode,
          warnings := Device.warnF d s.warnings },
        if Device.wOk d then none else some PyErr.typeError) := by
  unfold Device.updSeg6 Device.warnF Device.wOk
  rcases h : dGet d API_WARNINGS with _ | v
  · simp
  · rcases hi : pyIter v with _ | xs <;> simp [hi]

theorem Device.updSeg5_char (d : List (String × Value)) (s : DeviceState) :
    Device.updSeg5 d s =
      ({ s with
          modes := Device.modesF d s.modes,
          simulator_mode :=
            if Device.msOk d then
              keepSome (parse_bool (dGet d API_SIMULATOR_MODE)) s.simulator_mode
            else s.simulator_mode,
          warnings :=
            if Device.msOk d then Device.warnF d s.warnings else s.warnings },
        if Device.msOk d then
          (if Device.wOk d then none else some PyErr.typeError)
        else some (Device.msErr d)) := by
  unfold Device.updSeg5 Device.modesF Device.msOk Device.msErr
  rcases h : dGet d API_MODE_AVAIL with _ | v
  · rw [Device.updSeg6_char]
    simp
  · rcases hi : pyIter v with _ | xs
    · simp [hi]
    · by_cases hlen : xs.length > 0
      · rcases hm : xs.mapM OperationMode.ofRaw with _ | ms
        · simp only [hm, hi]
          simp [hlen]
        · simp only [hm, hi]
          rw [Device.updSeg6_char]
          simp [hlen]
      · rw [Device.updSeg6_char]
        simp [hi, hlen]

theorem Device.updSeg4_char (d : List (String × Value)) (s : DeviceState) :
    Device.updSeg4 d s =
      ({ s with
          mode := Device.modeF d s.mode,
          modes := if Device.mOk d then Device.modesF d s.modes else s.modes,
          simulator_mode :=
            if Device.mOk d && Device.msOk d then
              keepSome (parse_bool (dGet d API_SIMULATOR_MODE)) s.simulator_mode
            else s.simulator_mode,
          warnings :=
            if Device.mOk d && Device.msOk d then Device.warnF d s.warnings
            else s.warnings },
        if Device.mOk d then
          (if Device.msOk d then
            (if Device.wOk d then none else some PyErr.typeError)
          else some (Device.msErr d))
        else some PyErr.valueError) := by
  unfold Device.updSeg4 Device.modeF Device.mOk
  rcases h : dGet d API_MODE with _ | v
  · rw [Device.updSeg5_char]
    simp
  · rcases hm : OperationMode.ofRaw v with _ | m
    · simp [hm]
    · simp only [hm]
      rw [Device.updSeg5_char]
      simp

theorem Device.updSeg3_char (d : List (String × Value)) (s : DeviceState) :
    Device.updSeg3 d s =
      ({ s with
          double_set_point :=
            keepSome (parse_bool (dGet d API_DOUBLE_SET_POINT)) s.double_set_point,
          dual_sp_conf :=
            keepSome (parse_bool (dGet d API_DUAL_SP_CONF)) s.dual_sp_conf,
          errors := Device.errF d s.errors,
          mode := if Device.eOk d then Device.modeF d s.mode else s.mode,
          modes :=
            if Device.eOk d && Device.mOk d then Device.modesF d s.modes
            else s.modes,
          simulator_mode :=
            if Device.eOk d && Device.mOk d && Device.msOk d then
              keepSome (parse_bool (dGet d API_SIMULATOR_MODE)) s.simulator_mode
            else s.simulator_mode,
          warnings :=
            if Device.eOk d && Device.mOk d && Device.msOk d then
              Device.warnF d s.warnings
            else s.warnings },
        if Device.eOk d then
          (if Device.mOk d then
            (if Device.msOk d then
              (if Device.wOk d then none else some PyErr.typeError)
            else some (Device.msErr d))
          else some PyErr.valueError)
        else some PyErr.typeError) := by
  unfold Device.updSeg3 Device.errF Device.eOk
  rcases h : dGet d API_ERRORS with _ | v
  · simp only []
    rw [Device.updSeg4_char]
    simp
  · rcases hi : pyIter v with _ | xs
    · simp [hi]
    · simp only [hi]
      rw [Device.updSeg4_char]
      simp

theorem Device.updSeg2_char (d : List (String × Value)) (s : DeviceState) :
    Device.updSeg2 d s =
      ({ s with
          aq_present := keepSome (parse_bool (dGet d API_AQ_PRESENT)) s.aq_present,
          aq_quality := keepSome (parse_str (dGet d API_AQ_QUALITY)) s.aq_quality,
          aq_score := keepSome (parse_str (dGet d API_AQ_SCORE)) s.aq_score,
          auto_mode := Device.autoF d s.auto_mode,
          double_set_point :=
            if Device.aOk d then
              keepSome (parse_bool (dGet d API_DOUBLE_SET_POINT)) s.double_set_point
            else s.double_set_point,
          dual_sp_conf :=
            if Device.aOk d then
              keepSome (parse_bool (dGet d API_DUAL_SP_CONF)) s.dual_sp_conf
            else s.dual_sp_conf,
          errors := if Device.aOk d then Device.errF d s.errors else s.errors,
          mode :=
            if Device.aOk d && Device.eOk d then Device.modeF d s.mode else s.mode,
          modes :=
            if Device.aOk d && Device.eOk d && Device.mOk d then
              Device.modesF d s.modes
            else s.modes,
          simulator_mode :=
            if Device.aOk d && Device.eOk d && Device.mOk d && Device.msOk d then
              keepSome (parse_bool (dGet d API_SIMULATOR_MODE)) s.simulator_mode
            else s.simulator_mode,
          warnings :=
            if Device.aOk d && Device.eOk d && Device.mOk d && Device.msOk d then
              Device.warnF d s.warnings
            else s.warnings },
        if Device.aOk d then
          (if Device.eOk d then
            (if Device.mOk d then
              (if Device.msOk d then
                (if Device.wOk d then none else some PyErr.typeError)
              else some (Device.msErr d))
            else some PyErr.valueError)
          else some PyErr.typeError)
        else some PyErr.valueError) := by
  unfold Device.updSeg2 Device.autoF Device.aOk
  rcases h : dGet d API_AUTO_MODE with _ | v
  · simp only []
    rw [Device.updSeg3_char]
    simp
  · rcases hm : OperationMode.ofRaw v with _ | m
    · simp [hm]
    · simp only [hm]
      rw [Device.updSeg3_char]
      simp

theorem Device.applyUpdate_char (d : List (String × Value)) (s : DeviceState) :
    Device.applyUpdate d s = (Device.updateSpec d s, Device.updateErr d) := by
  unfold Device.applyUpdate Device.updateSpec Device.updateErr Device.tempF Device.tOk
  rcases h : dGet d API_AQ_TEMP with _ | v
  · simp only []
    rw [Device.updSeg2_char]
    simp
  · rcases v with _ | b | n | q | st | xs | m
    · simp
    · simp
    · simp
    · simp
    · simp
    · simp
    · simp only []
      rw [Device.updSeg2_char]
      simp

theorem keepSome_keepSome {α : Type} (o : Option α) (x : Option α) :
    keepSome o (keepSome o x) = keepSome o x := by
  cases o <;> rfl

theorem Device.updateErr_none_iff (d : List (String × Value)) :
    Device.updateErr d = none ↔
      (Device.tOk d = true ∧ Device.aOk d = true ∧ Device.eOk d = true ∧
       Device.mOk d = true ∧ Device.msOk d = true ∧ Device.wOk d = true) := by
  unfold Device.updateErr
  cases h1 : Device.tOk d <;> cases h2 : Device.aOk d <;> cases h3 : Device.eOk d <;>
    cases h4 : Device.mOk d <;> cases h5 : Device.msOk d <;> cases h6 : Device.wOk d <;> simp

/-- Final value of `aq_pressure` when its statement is reached: the raw value
is stored whenever the key is present. -/
def AirQuality.pressF (d : List (String × Value)) (old : Option Value) : Option Value :=
  match dGet d API_AQ_PRESSURE with
  | some v => some v
  | none => old

/-- The state `AirQuality.update_data` leaves behind: the `Device` merge
result, plus — when the `Device` merge did not raise — the air-quality
re-writes (which coincide with the `Device` merge on the shared fields) and
the `AirQuality`-only fields. -/
def AirQuality.updateSpec (d : List (String × Value)) (a : AirQualityState) :
    AirQualityState :=
  match Device.updateErr d with
  | some _ => { a with dev := Device.updateSpec d a.dev }
  | none =>
    { a with
      dev := Device.updateSpec d a.dev,
      aq_vent_active :=
        keepSome (parse_bool (dGet d API_AQ_VENT_ACTIVE)) a.aq_vent_active,
      aq_pressure := AirQuality.pressF d a.aq_pressure,
      aq_sensor_fw :=
        keepSome (parse_str (dGet d API_AQ_SENSOR_FW)) a.aq_sensor_fw }

theorem AirQuality.applyUpdate_aq_char (d : List (String × Value)) (a : AirQualityState) :
    AirQuality.applyUpdate d a = (AirQuality.updateSpec d a, Device.updateErr d) := by
  unfold AirQuality.applyUpdate AirQuality.updateSpec
  rw [Device.applyUpdate_char]
  rcases herr : Device.updateErr d with _ | e
  · obtain ⟨ht, ha, he, hm, hms, hw⟩ := (Device.updateErr_none_iff d).mp herr
    unfold AirQuality.updSeg1 AirQuality.updSeg2 AirQuality.pressF
    rcases hT : dGet d API_AQ_TEMP with _ | v
    · rcases hP : dGet d API_AQ_PRESSURE with _ | pv <;>
        simp [Device.updateSpec, Device.tempF, hT, hP, ht, ha, he, hm, hms,
          keepSome_keepSome]
    · rcases v with _ | b | n | q | st | xs | m
      · simp [Device.tOk, hT] at ht
      · simp [Device.tOk, hT] at ht
      · simp [Device.tOk, hT] at ht
      · simp [Device.tOk, hT] at ht
      · simp [Device.tOk, hT] at ht
      · simp [Device.tOk, hT] at ht
      · rcases hP : dGet d API_AQ_PRESSURE with _ | pv <;>
          simp [Device.updateSpec, Device.tempF, hT, hP, ht, ha, he, hm, hms,
            keepSome_keepSome]
  · simp

/-- Modelled from the spec: the normalized output identifiers (`AZD_*`
constants of the missing `const` module) form a fixed closed set of keys,
distinct from the vendor input keys; they are embedded as an enumeration. -/
inductive OutKey where
  | AZD_AVAILABLE
  | AZD_DOUBLE_SET_POINT
  | AZD_ID
  | AZD_INSTALLATION
  | AZD_IS_CONNECTED
  | AZD_NAME
  | AZD_PROBLEMS
  | AZD_WEBSERVER
  | AZD_WS_CONNECTED
  | AZD_AQ_ACTIVE
  | AZD_AQ_QUALITY
  | AZD_AQ_SCORE
  | AZD_AQ_PM_1
  | AZD_AQ_PM_2P5
  | AZD_AQ_PM_10
  | AZD_AQ_CO2
  | AZD_AQ_TVOC
  | AZD_AQ_HUMIDITY
  | AZD_AQ_TEMP
  | AZD_AQ_PRESENT
  | AZD_DUAL_SP_CONF
  | AZD_ERRORS
  | AZD_MODE
  | AZD_MODE_AUTO
  | AZD_MODES
  | AZD_SIMULATOR_MODE
  | AZD_WARNINGS
  | AZD_AQ_VENT_ACTIVE
  | AZD_AQ_PRESSURE
  | AZD_SYSTEM
  | AZD_ZONE
  | AZD_FIRMWARE
deriving DecidableEq

/-- A value of the consumer-facing output mapping produced by `data()`. -/
inductive OutVal where
  | b : Bool → OutVal
  | i : Int → OutVal
  | q : Rat → OutVal
  | s : String → OutVal
  | mode : OperationMode → OutVal
  | modes : List OperationMode → OutVal
  | vals : List Value → OutVal
  | raw : Value → OutVal

/-- Lookup in the output mapping. -/
def outGet (m : List (OutKey × OutVal)) (k : OutKey) : Option OutVal :=
  match m with
  | [] => none
  | (k', v) :: rest => if k' = k then some v else outGet rest k

/-- Python `data[k] = v` on the output dict: replace the binding when the key
is present, else append it. -/
def outSet (m : List (OutKey × OutVal)) (k : OutKey) (v : OutVal) :
    List (OutKey × OutVal) :=
  match m with
  | [] => [(k, v)]
  | (k', v') :: rest =>
    if k' = k then (k, v) :: rest else (k', v') :: outSet rest k v

/-- The output idiom `x = getter(); if x is not None: data[k] = x`. -/
def putOpt (m : List (OutKey × OutVal)) (k : OutKey) (o : Option OutVal) :
    List (OutKey × OutVal) :=
  match o with
  | some v => outSet m k v
  | none => m

/-- The quality-level translation loop (device.py lines 148-150 and
air_quality.py lines 100-102): write the level name for every table key equal
to the resolved quality code. -/
def qualityFold (q : String) (m : List (OutKey × OutVal)) : List (OutKey × OutVal) :=
  API_AQ_QUALITY_LEVELS.foldl
    (fun acc kv =>
      if q = kv.1 then outSet acc OutKey.AZD_AQ_QUALITY (OutVal.s kv.2) else acc)
    m

/-- Generalized table lookup (for the quality-level table). -/
def tableGet (t : List (String × String)) (k : String) : Option String :=
  match t with
  | [] => none
  | (k', v) :: rest => if k' = k then some v else tableGet rest k

/-- `Device.data` (device.py lines 128-216): the unconditional snapshot
fields, then each optional field only when its resolved value is present,
with the quality level translated through the lookup table. -/
def Device.data (s : DeviceState) : List (OutKey × OutVal) :=
  let m : List (OutKey × OutVal) :=
    [(OutKey.AZD_AVAILABLE, OutVal.b (Device.get_available s)),
     (OutKey.AZD_DOUBLE_SET_POINT, OutVal.b (Device.get_double_set_point s)),
     (OutKey.AZD_ID, OutVal.s (Device.get_id s)),
     (OutKey.AZD_INSTALLATION, OutVal.s (Device.get_installation s)),
     (OutKey.AZD_IS_CONNECTED, OutVal.b (Device.get_is_connected s)),
     (OutKey.AZD_NAME, OutVal.s (Device.get_name s)),
     (OutKey.AZD_PROBLEMS, OutVal.b (Device.get_problems s)),
     (OutKey.AZD_WEBSERVER, OutVal.s (Device.get_webserver s)),
     (OutKey.AZD_WS_CONNECTED, OutVal.b (Device.get_ws_connected s))]
  let m := putOpt m OutKey.AZD_AQ_ACTIVE ((Device.get_aq_active s).map OutVal.b)
  let m := match Device.get_aq_quality s with
           | none => m
           | some q => qualityFold q m
  let m := putOpt m OutKey.AZD_AQ_SCORE ((Device.get_aq_score s).map OutVal.s)
  let m := putOpt m OutKey.AZD_AQ_PM_1 ((Device.get_aq_pm_1 s).map OutVal.i)
  let m := putOpt m OutKey.AZD_AQ_PM_2P5 ((Device.get_aq_pm_2p5 s).map OutVal.i)
  let m := putOpt m OutKey.AZD_AQ_PM_10 ((Device.get_aq_pm_10 s).map OutVal.i)
  let m := putOpt m OutKey.AZD_AQ_CO2 ((Device.get_aq_co2 s).map OutVal.i)
  let m := putOpt m OutKey.AZD_AQ_TVOC ((Device.get_aq_tvoc s).map OutVal.i)
  let m := putOpt m OutKey.AZD_AQ_HUMIDITY ((Device.get_aq_humidity s).map OutVal.i)
  let m := putOpt m OutKey.AZD_AQ_TEMP ((Device.get_aq_temp s).map OutVal.q)
  let m := putOpt m OutKey.AZD_AQ_PRESENT ((Device.get_aq_present s).map OutVal.b)
  let m := putOpt m OutKey.AZD_DUAL_SP_CONF ((Device.get_dual_sp_conf s).map OutVal.b)
  let m := if (Device.get_errors s).length > 0 then
             outSet m OutKey.AZD_ERRORS (OutVal.vals (Device.get_errors s))
           else m
  let m := putOpt m OutKey.AZD_MODE ((Device.get_mode s).map OutVal.mode)
  let m := putOpt m OutKey.AZD_MODE_AUTO ((Device.get_mode_auto s).map OutVal.mode)
  let m := putOpt m OutKey.AZD_MODES ((Device.get_modes s).map OutVal.modes)
  let m := putOpt m OutKey.AZD_SIMULATOR_MODE
             ((Device.get_simulator_mode s).map OutVal.b)
  let m := if (Device.get_warnings s).length > 0 then
             outSet m OutKey.AZD_WARNINGS (OutVal.vals (Device.get_warnings s))
           else m
  m

/-- `AirQuality.get_aq_vent_active` (air_quality.py lines 153-157). -/
def AirQuality.get_aq_vent_active (a : AirQualityState) : Option Bool :=
  match a.dev.air_quality with
  | some aq => aq.aq_vent_active
  | none => a.aq_vent_active

/-- `AirQuality.get_aq_quality` (air_quality.py lines 159-163). -/
def AirQuality.get_aq_quality (a : AirQualityState) : Option String :=
  match a.dev.air_quality with
  | some aq => aq.aq_quality
  | none => a.dev.aq_quality

/-- `AirQuality.get_aq_score` (air_quality.py lines 165-169). -/
def AirQuality.get_aq_score (a : AirQualityState) : Option String :=
  match a.dev.air_quality with
  | some aq => aq.aq_score
  | none => a.dev.aq_score

/-- `AirQuality.get_aq_pm_1` (air_quality.py lines 171-175). -/
def AirQuality.get_aq_pm_1 (a : AirQualityState) : Option Int :=
  match a.dev.air_quality with
  | some aq => aq.aq_pm_1
  | none => a.dev.aq_pm_1

/-- `AirQuality.get_aq_pm_2p5` (air_quality.py lines 177-181). -/
def AirQuality.get_aq_pm_2p5 (a : AirQualityState) : Option Int :=
  match a.dev.air_quality with
  | some aq => aq.aq_pm_2p5
  | none => a.dev.aq_pm_2p5

/-- `AirQuality.get_aq_pm_10` (air_quality.py lines 183-187). -/
def AirQuality.get_aq_pm_10 (a : AirQualityState) : Option Int :=
  match a.dev.air_quality with
  | some aq => aq.aq_pm_10
  | none => a.dev.aq_pm_10

/-- `AirQuality.get_aq_co2` (air_quality.py lines 189-193). -/
def AirQuality.get_aq_co2 (a : AirQualityState) : Option Int :=
  match a.dev.air_quality with
  | some aq => aq.aq_co2
  | none => a.dev.aq_co2

/-- `AirQuality.get_aq_tvoc` (air_quality.py lines 195-199). -/
def AirQuality.get_aq_tvoc (a : AirQualityState) : Option Int :=
  match a.dev.air_quality with
  | some aq => aq.aq_tvoc
  | none => a.dev.aq_tvoc

/-- `AirQuality.get_aq_temp` (air_quality.py lines 201-205). -/
def AirQuality.get_aq_temp (a : AirQualityState) : Option Rat :=
  match a.dev.air_quality with
  | some aq => aq.aq_temp
  | none => a.dev.aq_temp

/-- `AirQuality.get_aq_pressure` (air_quality.py lines 207-211). -/
def AirQuality.get_aq_pressure (a : AirQualityState) : Option Value :=
  match a.dev.air_quality with
  | some aq => aq.aq_pressure
  | none => a.aq_pressure

/-- `AirQuality.get_aq_humidity` (air_quality.py lines 213-217). -/
def AirQuality.get_aq_humidity (a : AirQualityState) : Option Int :=
  match a.dev.air_quality with
  | some aq => aq.aq_humidity
  | none => a.dev.aq_humidity

/-- `AirQuality.get_aq_present` (air_quality.py lines 219-223). -/
def AirQuality.get_aq_present (a : AirQualityState) : Option Bool :=
  match a.dev.air_quality with
  | some aq => aq.aq_present
  | none => a.dev.aq_present

/-- `AirQuality.get_aq_sensor_fw` (air_quality.py lines 237-239). -/
def AirQuality.get_aq_sensor_fw (a : AirQualityState) : Option String :=
  a.aq_sensor_fw

/-- `AirQuality.get_system_num` (air_quality.py lines 241-243). -/
def AirQuality.get_system_num (a : AirQualityState) : Int := a.system_number

/-- `AirQuality.get_zone_num` (air_quality.py lines 245-247). -/
def AirQuality.get_zone_num (a : AirQualityState) : Int := a.zone_number

/-- `AirQuality.data` (air_quality.py lines 90-151): `super().data()` plus
the air-quality additions; the quality translation runs a second time with
the same resolved code and table. -/
def AirQuality.data (a : AirQualityState) : List (OutKey × OutVal) :=
  let m := Device.data a.dev
  let m := putOpt m OutKey.AZD_AQ_VENT_ACTIVE
             ((AirQuality.get_aq_vent_active a).map OutVal.b)
  let m := match AirQuality.get_aq_quality a with
           | none => m
           | some q => qualityFold q m
  let m := putOpt m OutKey.AZD_AQ_SCORE ((AirQuality.get_aq_score a).map OutVal.s)
  let m := putOpt m OutKey.AZD_AQ_PM_1 ((AirQuality.get_aq_pm_1 a).map OutVal.i)
  let m := putOpt m OutKey.AZD_AQ_PM_2P5 ((AirQuality.get_aq_pm_2p5 a).map OutVal.i)
  let m := putOpt m OutKey.AZD_AQ_PM_10 ((AirQuality.get_aq_pm_10 a).map OutVal.i)
  let m := putOpt m OutKey.AZD_AQ_CO2 ((AirQuality.get_aq_co2 a).map OutVal.i)
  let m := putOpt m OutKey.AZD_AQ_TVOC ((AirQuality.get_aq_tvoc a).map OutVal.i)
  let m := putOpt m OutKey.AZD_AQ_HUMIDITY
             ((AirQuality.get_aq_humidity a).map OutVal.i)
  let m := putOpt m OutKey.AZD_AQ_TEMP ((AirQuality.get_aq_temp a).map OutVal.q)
  let m := putOpt m OutKey.AZD_AQ_PRESSURE
             ((AirQuality.get_aq_pressure a).map OutVal.raw)
  let m := putOpt m OutKey.AZD_AQ_PRESENT
             ((AirQuality.get_aq_present a).map OutVal.b)
  let m := outSet m OutKey.AZD_SYSTEM (OutVal.i (AirQuality.get_system_num a))
  let m := outSet m OutKey.AZD_ZONE (OutVal.i (AirQuality.get_zone_num a))
  let m := putOpt m OutKey.AZD_FIRMWARE
             ((AirQuality.get_aq_sensor_fw a).map OutVal.s)
  m

theorem outGet_outSet_self (m : List (OutKey × OutVal)) (k : OutKey) (v : OutVal) :
    outGet (outSet m k v) k = some v := by
  induction m with
  | nil => simp [outSet, outGet]
  | cons hd tl ih =>
    by_cases h : hd.1 = k <;> simp [outSet, outGet, h, ih]

theorem outGet_outSet_ne (m : List (OutKey × OutVal)) (k' : OutKey) (v : OutVal)
    (k : OutKey) (h : k' ≠ k) : outGet (outSet m k' v) k = outGet m k := by
  induction m with
  | nil => simp [outSet, outGet, h]
  | cons hd tl ih =>
    by_cases h2 : hd.1 = k' <;> simp [outSet, outGet, h2, h, ih]

theorem outGet_putOpt_ne (m : List (OutKey × OutVal)) (k' : OutKey)
    (o : Option OutVal) (k : OutKey) (h : k' ≠ k) :
    outGet (putOpt m k' o) k = outGet m k := by
  cases o <;> simp [putOpt, outGet_outSet_ne _ _ _ _ h]

theorem outGet_ite_outSet_ne {c : Prop} [Decidable c] (m : List (OutKey × OutVal))
    (k' : OutKey) (v : OutVal) (k : OutKey) (h : k' ≠ k) :
    outGet (if c then outSet m k' v else m) k = outGet m k := by
  split
  · exact outGet_outSet_ne _ _ _ _ h
  · rfl

theorem qualityFold_quality (q : String) (m : List (OutKey × OutVal)) :
    outGet (qualityFold q m) OutKey.AZD_AQ_QUALITY =
      match tableGet API_AQ_QUALITY_LEVELS q with
      | some nm => some (OutVal.s nm)
      | none => outGet m OutKey.AZD_AQ_QUALITY := by
  unfold qualityFold API_AQ_QUALITY_LEVELS
  by_cases h1 : q = "good"
  · subst h1
    simp [tableGet, outGet_outSet_self]
  · by_cases h2 : q = "regular"
    · subst h2
      simp [tableGet, outGet_outSet_self]
    · by_cases h3 : q = "bad"
      · subst h3
        simp [tableGet, outGet_outSet_self]
      · simp [tableGet, h1, h2, h3, Ne.symm h1, Ne.symm h2, Ne.symm h3]

theorem Device.data_quality (s : DeviceState) :
    outGet (Device.data s) OutKey.AZD_AQ_QUALITY =
      match Device.get_aq_quality s with
      | none => none
      | some q => (tableGet API_AQ_QUALITY_LEVELS q).map OutVal.s := by
  unfold Device.data
  rcases hq : Device.get_aq_quality s with _ | q
  · simp [outGet_putOpt_ne, outGet_ite_outSet_ne, outGet]
  · simp [outGet_putOpt_ne, outGet_ite_outSet_ne, qualityFold_quality, outGet]
    rcases htg : tableGet API_AQ_QUALITY_LEVELS q with _ | nm <;> simp [htg]

theorem AirQuality.data_aq_quality (a : AirQualityState) :
    outGet (AirQuality.data a) OutKey.AZD_AQ_QUALITY =
      match AirQuality.get_aq_quality a with
      | none => none
      | some q => (tableGet API_AQ_QUALITY_LEVELS q).map OutVal.s := by
  unfold AirQuality.data
  rcases hq : AirQuality.get_aq_quality a with _ | q
  · have hq2 : Device.get_aq_quality a.dev = none := hq
    simp [outGet_putOpt_ne, outGet_outSet_ne, Device.data_quality, hq2]
  · have hq2 : Device.get_aq_quality a.dev = some q := hq
    simp [outGet_putOpt_ne, outGet_outSet_ne, qualityFold_quality,
      Device.data_quality, hq2]
    rcases htg : tableGet API_AQ_QUALITY_LEVELS q with _ | nm <;> simp [htg]

/-- A concrete device state used to instantiate theorems on explicit inputs. -/
def sampleDev : DeviceState :=
  { air_quality := none
    auto_mode := none
    aq_active := none
    aq_pm_1 := none
    aq_pm_2p5 := none
    aq_pm_10 := none
    aq_co2 := none
    aq_tvoc := none
    aq_humidity := none
    aq_temp := some 25
    aq_present := none
    aq_quality := none
    aq_score := none
    double_set_point := none
    dual_sp_conf := none
    errors := [Value.vstr "E1"]
    id := "dev1"
    installation_id := "inst1"
    mode := none
    modes := [OperationMode.auto]
    name := "Device"
    simulator_mode := none
    warnings := []
    webserver_id := "ws1"
    ws_connected := true
    is_connected := true }

/-- A concrete air-quality device state. -/
def sampleAQ : AirQualityState :=
  { dev := sampleDev
    aq_sensor_fw := none
    systems := []
    zones := []
    aq_vent_active := none
    aq_pressure := none
    system_number := 1
    zone_number := 2 }

/-- A concrete attached air-quality view whose `aq_pm_1` is 12. -/
def sampleView : AQView :=
  { aq_active := some true
    aq_vent_active := none
    aq_pm_1 := some 12
    aq_pm_2p5 := some 7
    aq_pm_10 := none
    aq_co2 := some 400
    aq_tvoc := none
    aq_humidity := some 40
    aq_temp := some 21
    aq_pressure := none
    aq_present := some true
    aq_quality := some "good"
    aq_score := some "80" }

/-- C5: air-quality delegation — whenever a Device's `air_quality` association
is set, every delegating `get_aq_*` accessor returns the corresponding
attribute of the attached AirQuality instance, regardless of the Device's own
local fields; when the association is `none`, each accessor returns the local
field.  The getters are embedded as pure functions of the state, so reading
cannot modify the local fields. -/
theorem C5_aq_delegation (s : DeviceState) (v : AQView) :
    (s.air_quality = some v →
      Device.get_aq_active s = v.aq_active ∧
      Device.get_aq_quality s = v.aq_quality ∧
      Device.get_aq_score s = v.aq_score ∧
      Device.get_aq_pm_1 s = v.aq_pm_1 ∧
      Device.get_aq_pm_2p5 s = v.aq_pm_2p5 ∧
      Device.get_aq_pm_10 s = v.aq_pm_10 ∧
      Device.get_aq_co2 s = v.aq_co2 ∧
      Device.get_aq_tvoc s = v.aq_tvoc ∧
      Device.get_aq_temp s = v.aq_temp ∧
      Device.get_aq_humidity s = v.aq_humidity ∧
      Device.get_aq_present s = v.aq_present) ∧
    (s.air_quality = none →
      Device.get_aq_active s = s.aq_active ∧
      Device.get_aq_quality s = s.aq_quality ∧
      Device.get_aq_score s = s.aq_score ∧
      Device.get_aq_pm_1 s = s.aq_pm_1 ∧
      Device.get_aq_pm_2p5 s = s.aq_pm_2p5 ∧
      Device.get_aq_pm_10 s = s.aq_pm_10 ∧
      Device.get_aq_co2 s = s.aq_co2 ∧
      Device.get_aq_tvoc s = s.aq_tvoc ∧
      Device.get_aq_temp s = s.aq_temp ∧
      Device.get_aq_humidity s = s.aq_humidity ∧
      Device.get_aq_present s = s.aq_present) := by
  constructor <;> intro h <;>
    simp [Device.get_aq_active, Device.get_aq_quality, Device.get_aq_score,
      Device.get_aq_pm_1, Device.get_aq_pm_2p5, Device.get_aq_pm_10,
      Device.get_aq_co2, Device.get_aq_tvoc, Device.get_aq_temp,
      Device.get_aq_humidity, Device.get_aq_present, h]

/-- C5 witness: a concrete device whose attached AirQuality has `aq_pm_1 = 12`
returns 12 from `get_aq_pm_1` although its own local `aq_pm_1` is absent. -/
theorem C5_aq_delegation_witness :
    Device.get_aq_pm_1 { sampleDev with air_quality := some sampleView } = some 12 ∧
    ({ sampleDev with air_quality := some sampleView } : DeviceState).aq_pm_1 = none :=
  ⟨((C5_aq_delegation { sampleDev with air_quality := some sampleView }
      sampleView).1 rfl).2.2.2.1.trans rfl, rfl⟩

/-- C6: the mode-setter guard — `set_mode` with a mode that is a member of the
device's `modes` list writes it; with a non-member the state is unchanged (the
embedding is a total function: no exception reaches the caller, only a
diagnostic is logged). -/
theorem C6_set_mode_guard (s : DeviceState) (m : OperationMode) :
    (m ∈ s.modes → Device.set_mode s m = { s with mode := some m }) ∧
    (m ∉ s.modes → Device.set_mode s m = s) := by
  constructor <;> intro h <;> simp [Device.set_mode, h]

/-- C6 witness: with `modes = [auto, cooling]`, setting `heating` leaves the
state unchanged and setting `cooling` writes `mode = cooling`. -/
theorem C6_set_mode_guard_witness :
    Device.set_mode { sampleDev with modes := [OperationMode.auto, OperationMode.cooling] }
        OperationMode.heating =
      { sampleDev with modes := [OperationMode.auto, OperationMode.cooling] } ∧
    (Device.set_mode { sampleDev with modes := [OperationMode.auto, OperationMode.cooling] }
        OperationMode.cooling).mode = some OperationMode.cooling := by
  constructor
  · exact (C6_set_mode_guard _ OperationMode.heating).2 (by decide)
  · rw [(C6_set_mode_guard _ OperationMode.cooling).1 (by decide)]

/-- C9: `Device.get_aq_status` never returns — its body starts with the
unconditional recursive call `self.get_aq_status()`, so no amount of fuel
produces a result (the post-recursion branch, which would resolve the
undefined name `API_AQ_STATUS`, is unreachable). -/
theorem C9_get_aq_status_diverges (s : DeviceState) (fuel : Nat) :
    Device.get_aq_status_fuel s fuel = none := by
  induction fuel with
  | zero => rfl
  | succ n ih => simp [Device.get_aq_status_fuel, ih]

/-- C10: `get_available` holds exactly when the device is connected and the
webserver is connected, and `get_problems` holds exactly when the error list
or the warning list is nonempty; both are pure functions of the state. -/
theorem C10_derived_getters (s : DeviceState) :
    (Device.get_available s = true ↔ (s.is_connected = true ∧ s.ws_connected = true)) ∧
    (Device.get_problems s = true ↔ (s.errors ≠ [] ∨ s.warnings ≠ [])) := by
  constructor
  · simp [Device.get_available]
  · simp [Device.get_problems, List.isEmpty_iff]

/-- C8: quality-level translation in `data()` — for both `Device.data` and
`AirQuality.data`, when the resolved raw quality level is a key of the fixed
lookup table the output binds the quality key to exactly that entry's name,
and when the level is absent or unknown the output carries no quality key. -/
theorem C8_quality_translation :
    (∀ s : DeviceState,
      outGet (Device.data s) OutKey.AZD_AQ_QUALITY =
        match Device.get_aq_quality s with
        | none => none
        | some q => (tableGet API_AQ_QUALITY_LEVELS q).map OutVal.s) ∧
    (∀ a : AirQualityState,
      outGet (AirQuality.data a) OutKey.AZD_AQ_QUALITY =
        match AirQuality.get_aq_quality a with
        | none => none
        | some q => (tableGet API_AQ_QUALITY_LEVELS q).map OutVal.s) :=
  ⟨Device.data_quality, AirQuality.data_aq_quality⟩

theorem optGetD_getD {α : Type} (o : Option α) (x : α) :
    o.getD (o.getD x) = o.getD x := by
  cases o <;> rfl

theorem Device.tempF_idem (d : List (String × Value)) (x : Option Rat) :
    Device.tempF d (Device.tempF d x) = Device.tempF d x := by
  unfold Device.tempF
  rcases h : dGet d API_AQ_TEMP with _ | v
  · rfl
  · rcases v <;> rfl

theorem Device.autoF_idem (d : List (String × Value)) (x : Option OperationMode) :
    Device.autoF d (Device.autoF d x) = Device.autoF d x := by
  unfold Device.autoF
  rcases h : dGet d API_AUTO_MODE with _ | v
  · rfl
  · rcases hm : OperationMode.ofRaw v with _ | m <;> simp [hm]

theorem Device.modeF_idem (d : List (String × Value)) (x : Option OperationMode) :
    Device.modeF d (Device.modeF d x) = Device.modeF d x := by
  unfold Device.modeF
  rcases h : dGet d API_MODE with _ | v
  · rfl
  · rcases hm : OperationMode.ofRaw v with _ | m <;> simp [hm]

theorem Device.errF_idem (d : List (String × Value)) (x : List Value) :
    Device.errF d (Device.errF d x) = Device.errF d x := by
  unfold Device.errF
  rcases h : dGet d API_ERRORS with _ | v
  · rfl
  · rcases hi : pyIter v with _ | xs <;> simp [hi]

theorem Device.warnF_idem (d : List (String × Value)) (x : List Value) :
    Device.warnF d (Device.warnF d x) = Device.warnF d x := by
  unfold Device.warnF
  rcases h : dGet d API_WARNINGS with _ | v
  · rfl
  · rcases hi : pyIter v with _ | xs <;> simp [hi]

theorem Device.modesF_idem (d : List (String × Value)) (x : List OperationMode) :
    Device.modesF d (Device.modesF d x) = Device.modesF d x := by
  unfold Device.modesF
  rcases h : dGet d API_MODE_AVAIL with _ | v
  · rfl
  · rcases hi : pyIter v with _ | xs
    · simp [hi]
    · by_cases hlen : xs.length > 0
      · rcases hm : xs.mapM OperationMode.ofRaw with _ | ms
        · simp only [hi, hm]
          simp [hlen, hm]
        · simp only [hi, hm]
          simp [hlen, hm]
      · simp only [hi]
        simp [hlen]

theorem AirQuality.pressF_idem (d : List (String × Value)) (x : Option Value) :
    AirQuality.pressF d (AirQuality.pressF d x) = AirQuality.pressF d x := by
  unfold AirQuality.pressF
  rcases h : dGet d API_AQ_PRESSURE with _ | v <;> rfl

theorem Device.updateSpec_idem (d : List (String × Value)) (s : DeviceState) :
    Device.updateSpec d (Device.updateSpec d s) = Device.updateSpec d s := by
  unfold Device.updateSpec
  cases h1 : Device.tOk d <;> cases h2 : Device.aOk d <;> cases h3 : Device.eOk d <;>
    cases h4 : Device.mOk d <;> cases h5 : Device.msOk d <;>
    simp [h1, h2, h3, h4, h5, keepSome_keepSome, optGetD_getD, Device.tempF_idem,
      Device.autoF_idem, Device.modeF_idem, Device.errF_idem, Device.warnF_idem,
      Device.modesF_idem]

theorem AirQuality.updateSpec_aq_idem (d : List (String × Value)) (a : AirQualityState) :
    AirQuality.updateSpec d (AirQuality.updateSpec d a) = AirQuality.updateSpec d a := by
  unfold AirQuality.updateSpec
  cases herr : Device.updateErr d <;>
    simp [Device.updateSpec_idem, keepSome_keepSome, AirQuality.pressF_idem]

/-- C4: idempotence of the merge — applying the same update envelope twice in
succession (to a `Device` or an `AirQuality`) produces exactly the same
resulting state, and the same raised-exception outcome, as applying it once. -/
theorem C4_update_data_idempotent :
    (∀ (s : DeviceState) (u : EntityUpdate),
      Device.update_data (Device.update_data s u).1 u = Device.update_data s u) ∧
    (∀ (a : AirQualityState) (u : EntityUpdate),
      AirQuality.update_data (AirQuality.update_data a u).1 u =
        AirQuality.update_data a u) := by
  constructor
  · intro s u
    simp only [Device.update_data, Device.applyUpdate_char]
    simp [Device.updateSpec_idem]
  · intro a u
    simp only [AirQuality.update_data, AirQuality.applyUpdate_aq_char]
    simp [AirQuality.updateSpec_aq_idem]

/-- Envelope whose temperature sub-object is present but lacks the Celsius
sub-key. -/
def uTempNoCelsius : EntityUpdate := ⟨[(API_AQ_TEMP, Value.vdict [])]⟩

/-- C1 counterexample: the temperature key is present, its Celsius sub-key is
absent (so the field parse yields absent), yet `update_data` does not leave
`aq_temp` unchanged — it clears the previously stored 25 to absent
(device.py lines 416-419 assign the parse result unconditionally). -/
theorem C1_counterexample :
    dGet uTempNoCelsius.get_data API_AQ_TEMP = some (Value.vdict []) ∧
    parse_float (dGet [] API_AQ_TEMP_CELSIUS) = none ∧
    sampleDev.aq_temp = some 25 ∧
    (Device.update_data sampleDev uTempNoCelsius).1.aq_temp = none := by
  refine ⟨rfl, rfl, rfl, rfl⟩

/-- C1 (amended): field stickiness of the merge — an absent key leaves every
tracked attribute unchanged, and a present-but-unparsable value leaves every
parser-guarded attribute unchanged, for both `Device.update_data` and
`AirQuality.update_data`; EXCEPT for `aq_temp`: when the temperature key
holds a mapping, the attribute is overwritten with the float-parse of the
Celsius entry even when that parse is absent (the attribute is cleared). -/
theorem C1_field_stickiness_amended (s : DeviceState) (a : AirQualityState)
    (u : EntityUpdate) :
    (parse_bool (dGet u.get_data API_IS_CONNECTED) = none →
      (Device.update_data s u).1.is_connected = s.is_connected) ∧
    (parse_bool (dGet u.get_data API_WS_CONNECTED) = none →
      (Device.update_data s u).1.ws_connected = s.ws_connected) ∧
    (parse_bool (dGet u.get_data API_AQ_ACTIVE) = none →
      (Device.update_data s u).1.aq_active = s.aq_active) ∧
    (parse_int (dGet u.get_data API_AQ_PM_1) = none →
      (Device.update_data s u).1.aq_pm_1 = s.aq_pm_1) ∧
    (parse_int (dGet u.get_data API_AQ_PM_2P5) = none →
      (Device.update_data s u).1.aq_pm_2p5 = s.aq_pm_2p5) ∧
    (parse_int (dGet u.get_data API_AQ_PM_10) = none →
      (Device.update_data s u).1.aq_pm_10 = s.aq_pm_10) ∧
    (parse_int (dGet u.get_data API_AQ_CO2) = none →
      (Device.update_data s u).1.aq_co2 = s.aq_co2) ∧
    (parse_int (dGet u.get_data API_AQ_TVOC) = none →
      (Device.update_data s u).1.aq_tvoc = s.aq_tvoc) ∧
    (parse_int (dGet u.get_data API_AQ_HUMIDITY) = none →
      (Device.update_data s u).1.aq_humidity = s.aq_humidity) ∧
    (parse_bool (dGet u.get_data API_AQ_PRESENT) = none →
      (Device.update_data s u).1.aq_present = s.aq_present) ∧
    (parse_str (dGet u.get_data API_AQ_QUALITY) = none →
      (Device.update_data s u).1.aq_quality = s.aq_quality) ∧
    (parse_str (dGet u.get_data API_AQ_SCORE) = none →
      (Device.update_data s u).1.aq_score = s.aq_score) ∧
    (parse_bool (dGet u.get_data API_DOUBLE_SET_POINT) = none →
      (Device.update_data s u).1.double_set_point = s.double_set_point) ∧
    (parse_bool (dGet u.get_data API_DUAL_SP_CONF) = none →
      (Device.update_data s u).1.dual_sp_conf = s.dual_sp_conf) ∧
    (parse_bool (dGet u.get_data API_SIMULATOR_MODE) = none →
      (Device.update_data s u).1.simulator_mode = s.simulator_mode) ∧
    (dGet u.get_data API_AUTO_MODE = none →
      (Device.update_data s u).1.auto_mode = s.auto_mode) ∧
    (dGet u.get_data API_ERRORS = none →
      (Device.update_data s u).1.errors = s.errors) ∧
    (dGet u.get_data API_MODE = none →
      (Device.update_data s u).1.mode = s.mode) ∧
    (dGet u.get_data API_MODE_AVAIL = none →
      (Device.update_data s u).1.modes = s.modes) ∧
    (dGet u.get_data API_WARNINGS = none →
      (Device.update_data s u).1.warnings = s.warnings) ∧
    (dGet u.get_data API_AQ_TEMP = none →
      (Device.update_data s u).1.aq_temp = s.aq_temp) ∧
    (∀ mp, dGet u.get_data API_AQ_TEMP = some (Value.vdict mp) →
      (Device.update_data s u).1.aq_temp =
        parse_float (dGet mp API_AQ_TEMP_CELSIUS)) ∧
    (parse_int (dGet u.get_data API_AQ_PM_1) = none →
      (AirQuality.update_data a u).1.dev.aq_pm_1 = a.dev.aq_pm_1) ∧
    (parse_bool (dGet u.get_data API_AQ_VENT_ACTIVE) = none →
      (AirQuality.update_data a u).1.aq_vent_active = a.aq_vent_active) ∧
    (parse_str (dGet u.get_data API_AQ_SENSOR_FW) = none →
      (AirQuality.update_data a u).1.aq_sensor_fw = a.aq_sensor_fw) ∧
    (dGet u.get_data API_AQ_PRESSURE = none →
      (AirQuality.update_data a u).1.aq_pressure = a.aq_pressure) ∧
    (dGet u.get_data API_AQ_TEMP = none →
      (AirQuality.update_data a u).1.dev.aq_temp = a.dev.aq_temp) ∧
    (∀ mp, dGet u.get_data API_AQ_TEMP = some (Value.vdict mp) →
      (AirQuality.update_data a u).1.dev.aq_temp =
        parse_float (dGet mp API_AQ_TEMP_CELSIUS)) := by
  refine ⟨?_, ?_, ?_, ?_, ?_, ?_, ?_, ?_, ?_, ?_, ?_, ?_, ?_, ?_, ?_, ?_, ?_,
    ?_, ?_, ?_, ?_, ?_, ?_, ?_, ?_, ?_, ?_, ?_⟩
  · intro h
    simp [Device.update_data, Device.applyUpdate_char, Device.updateSpec, keepSome, h]
  · intro h
    simp [Device.update_data, Device.applyUpdate_char, Device.updateSpec, keepSome, h]
  · intro h
    simp [Device.update_data, Device.applyUpdate_char, Device.updateSpec, keepSome, h]
  · intro h
    simp [Device.update_data, Device.applyUpdate_char, Device.updateSpec, keepSome, h]
  · intro h
    simp [Device.update_data, Device.applyUpdate_char, Device.updateSpec, keepSome, h]
  · intro h
    simp [Device.update_data, Device.applyUpdate_char, Device.updateSpec, keepSome, h]
  · intro h
    simp [Device.update_data, Device.applyUpdate_char, Device.updateSpec, keepSome, h]
  · intro h
    simp [Device.update_data, Device.applyUpdate_char, Device.updateSpec, keepSome, h]
  · intro h
    simp [Device.update_data, Device.applyUpdate_char, Device.updateSpec, keepSome, h]
  · intro h
    simp [Device.update_data, Device.applyUpdate_char, Device.updateSpec, keepSome, h]
  · intro h
    simp [Device.update_data, Device.applyUpdate_char, Device.updateSpec, keepSome, h]
  · intro h
    simp [Device.update_data, Device.applyUpdate_char, Device.updateSpec, keepSome, h]
  · intro h
    simp [Device.update_data, Device.applyUpdate_char, Device.updateSpec, keepSome, h]
  · intro h
    simp [Device.update_data, Device.applyUpdate_char, Device.updateSpec, keepSome, h]
  · intro h
    simp [Device.update_data, Device.applyUpdate_char, Device.updateSpec, keepSome, h]
  · intro h
    simp [Device.update_data, Device.applyUpdate_char, Device.updateSpec, Device.autoF, h]
  · intro h
    simp [Device.update_data, Device.applyUpdate_char, Device.updateSpec, Device.errF, h]
  · intro h
    simp [Device.update_data, Device.applyUpdate_char, Device.updateSpec, Device.modeF, h]
  · intro h
    simp [Device.update_data, Device.applyUpdate_char, Device.updateSpec, Device.modesF, h]
  · intro h
    simp [Device.update_data, Device.applyUpdate_char, Device.updateSpec, Device.warnF, h]
  · intro h
    simp [Device.update_data, Device.applyUpdate_char, Device.updateSpec, Device.tempF, h]
  · intro mp h
    simp [Device.update_data, Device.applyUpdate_char, Device.updateSpec,
      Device.tempF, h]
  · intro h
    cases herr : Device.updateErr (EntityUpdate.get_data u) <;>
      simp [AirQuality.update_data, AirQuality.applyUpdate_aq_char,
        AirQuality.updateSpec, Device.updateSpec, keepSome, herr, h]
  · intro h
    cases herr : Device.updateErr (EntityUpdate.get_data u) <;>
      simp [AirQuality.update_data, AirQuality.applyUpdate_aq_char,
        AirQuality.updateSpec, Device.updateSpec, keepSome, herr, h]
  · intro h
    cases herr : Device.updateErr (EntityUpdate.get_data u) <;>
      simp [AirQuality.update_data, AirQuality.applyUpdate_aq_char,
        AirQuality.updateSpec, Device.updateSpec, keepSome, herr, h]
  · intro h
    cases herr : Device.updateErr (EntityUpdate.get_data u) <;>
      simp [AirQuality.update_data, AirQuality.applyUpdate_aq_char,
        AirQuality.updateSpec, AirQuality.pressF, herr, h]
  · intro h
    cases herr : Device.updateErr (EntityUpdate.get_data u) <;>
      simp [AirQuality.update_data, AirQuality.applyUpdate_aq_char,
        AirQuality.updateSpec, Device.updateSpec, Device.tempF, herr, h]
  · intro mp h
    cases herr : Device.updateErr (EntityUpdate.get_data u) <;>
      simp [AirQuality.update_data, AirQuality.applyUpdate_aq_char,
        AirQuality.updateSpec, Device.updateSpec, Device.tempF, herr, h]

/-- C1 witness: instantiating the amended stickiness theorem on a concrete
device and an envelope with an unparsable reading plus a Celsius-free
temperature mapping. -/
theorem C1_field_stickiness_amended_witness :
    (Device.update_data sampleDev ⟨[(API_AQ_PM_1, Value.vlist [])]⟩).1.aq_pm_1 =
      sampleDev.aq_pm_1 ∧
    (AirQuality.update_data sampleAQ ⟨[(API_AQ_PM_1, Value.vlist [])]⟩).1.aq_pressure =
      sampleAQ.aq_pressure ∧
    (Device.update_data sampleDev uTempNoCelsius).1.aq_temp =
      parse_float (dGet [] API_AQ_TEMP_CELSIUS) := by
  refine ⟨?_, ?_, ?_⟩
  · exact (C1_field_stickiness_amended sampleDev sampleAQ
      ⟨[(API_AQ_PM_1, Value.vlist [])]⟩).2.2.2.1 (by rfl)
  · exact (C1_field_stickiness_amended sampleDev sampleAQ
      ⟨[(API_AQ_PM_1, Value.vlist [])]⟩).2.2.2.2.2.2.2.2.2.2.2.2.2.2.2.2.2.2.2.2.2.2.2.2.2.1 (by rfl)
  · exact ((C1_field_stickiness_amended sampleDev sampleAQ
      uTempNoCelsius).2.2.2.2.2.2.2.2.2.2.2.2.2.2.2.2.2.2.2.2.2.1) [] (by rfl)

/-- All raising statements of the merge pass for this payload: every present
current-mode/auto-mode value and every member of a present nonempty
available-modes list is a recognized `OperationMode` raw value, a present
temperature value is a mapping, and present errors/warnings/available-modes
values are iterable. -/
def Device.updateSafe (d : List (String × Value)) : Bool :=
  Device.tOk d && Device.aOk d && Device.eOk d && Device.mOk d &&
    Device.msOk d && Device.wOk d

/-- Envelope carrying an unrecognized raw current-mode value together with a
well-formed simulator-mode flag. -/
def uBadMode : EntityUpdate :=
  ⟨[(API_MODE, Value.vint 99), (API_SIMULATOR_MODE, Value.vbool true)]⟩

/-- C2 counterexample: an envelope with an unrecognized raw value under the
current-mode key makes both `Device.update_data` and
`AirQuality.update_data` raise `ValueError` (the `OperationMode` constructor
at device.py line 453), and the well-formed simulator-mode field later in the
same envelope is consequently not processed. -/
theorem C2_counterexample :
    (Device.update_data sampleDev uBadMode).2 = some PyErr.valueError ∧
    (AirQuality.update_data sampleAQ uBadMode).2 = some PyErr.valueError ∧
    parse_bool (dGet uBadMode.get_data API_SIMULATOR_MODE) = some true ∧
    (Device.update_data sampleDev uBadMode).1.simulator_mode = none := by
  refine ⟨rfl, rfl, rfl, rfl⟩

/-- C2 (amended): error containment of the merge holds for payloads whose
raising statements all pass (`Device.updateSafe`): neither `update_data`
raises, and a malformed value for one parser-guarded field never prevents the
remaining fields from being processed (shown for the simulator-mode and PM1
fields, which are written from their own keys whatever the other fields
hold). -/
theorem C2_error_containment_amended (s : DeviceState) (a : AirQualityState)
    (u : EntityUpdate) (h : Device.updateSafe u.get_data = true) :
    (Device.update_data s u).2 = none ∧
    (AirQuality.update_data a u).2 = none ∧
    (∀ b, parse_bool (dGet u.get_data API_SIMULATOR_MODE) = some b →
      (Device.update_data s u).1.simulator_mode = some b) ∧
    (∀ n, parse_int (dGet u.get_data API_AQ_PM_1) = some n →
      (Device.update_data s u).1.aq_pm_1 = some n) := by
  simp only [Device.updateSafe, Bool.and_eq_true] at h
  obtain ⟨⟨⟨⟨⟨ht, ha⟩, he⟩, hm⟩, hms⟩, hw⟩ := h
  have herr : Device.updateErr u.get_data = none :=
    (Device.updateErr_none_iff _).mpr ⟨ht, ha, he, hm, hms, hw⟩
  refine ⟨?_, ?_, ?_, ?_⟩
  · simp [Device.update_data, Device.applyUpdate_char, herr]
  · simp [AirQuality.update_data, AirQuality.applyUpdate_aq_char, herr]
  · intro b hb
    simp [Device.update_data, Device.applyUpdate_char, Device.updateSpec,
      keepSome, hb, ht, ha, he, hm, hms]
  · intro n hn
    simp [Device.update_data, Device.applyUpdate_char, Device.updateSpec,
      keepSome, hn]

/-- C2 witness: a payload with a malformed PM1 reading and a good simulator
flag passes all gates; the merge raises nothing and still processes the
simulator field. -/
theorem C2_error_containment_amended_witness :
    (Device.update_data sampleDev
        ⟨[(API_AQ_PM_1, Value.vlist []), (API_SIMULATOR_MODE, Value.vbool true)]⟩).2 =
      none ∧
    (Device.update_data sampleDev
        ⟨[(API_AQ_PM_1, Value.vlist []), (API_SIMULATOR_MODE, Value.vbool true)]⟩).1.simulator_mode =
      some true := by
  have h := C2_error_containment_amended sampleDev sampleAQ
    ⟨[(API_AQ_PM_1, Value.vlist []), (API_SIMULATOR_MODE, Value.vbool true)]⟩ (by rfl)
  exact ⟨h.1, h.2.2.1 true (by rfl)⟩

/-- Envelope with an empty available-modes list. -/
def uEmptyModes : EntityUpdate := ⟨[(API_MODE_AVAIL, Value.vlist [])]⟩

/-- C3 counterexample: the available-modes key is present with an empty list,
but the prior `modes` list is retained, not replaced by the empty list
(`len(mode_avail) > 0` at device.py line 455 skips the assignment). -/
theorem C3_counterexample :
    dGet uEmptyModes.get_data API_MODE_AVAIL = some (Value.vlist []) ∧
    sampleDev.modes = [OperationMode.auto] ∧
    (Device.update_data sampleDev uEmptyModes).1.modes = [OperationMode.auto] ∧
    (Device.update_data sampleDev uEmptyModes).1.modes ≠ ([] : List OperationMode) := by
  refine ⟨rfl, rfl, rfl, by decide⟩

/-- C3 (amended): list-field replace semantics — `errors` and `warnings` are
replaced in full whenever their key is present with a (non-null) list value,
even by an empty list, and retained when the key is absent; `modes` is
replaced only when the available-modes key is present with a NONEMPTY list
whose members all parse — an empty list is ignored and the prior list is
retained. -/
theorem C3_list_replace_amended (s : DeviceState) (u : EntityUpdate) :
    (∀ xs, dGet u.get_data API_ERRORS = some (Value.vlist xs) →
      (Device.update_data s u).2 = none →
      (Device.update_data s u).1.errors = xs) ∧
    (dGet u.get_data API_ERRORS = none →
      (Device.update_data s u).1.errors = s.errors) ∧
    (∀ xs, dGet u.get_data API_WARNINGS = some (Value.vlist xs) →
      (Device.update_data s u).2 = none →
      (Device.update_data s u).1.warnings = xs) ∧
    (dGet u.get_data API_WARNINGS = none →
      (Device.update_data s u).1.warnings = s.warnings) ∧
    (∀ xs ms, dGet u.get_data API_MODE_AVAIL = some (Value.vlist xs) →
      xs ≠ [] → xs.mapM OperationMode.ofRaw = some ms →
      (Device.update_data s u).2 = none →
      (Device.update_data s u).1.modes = ms) ∧
    (dGet u.get_data API_MODE_AVAIL = some (Value.vlist []) →
      (Device.update_data s u).1.modes = s.modes) ∧
    (dGet u.get_data API_MODE_AVAIL = none →
      (Device.update_data s u).1.modes = s.modes) := by
  simp only [Device.update_data, Device.applyUpdate_char]
  refine ⟨?_, ?_, ?_, ?_, ?_, ?_, ?_⟩
  · intro xs hx hsucc
    obtain ⟨ht, ha, he, hm, hms, hw⟩ := (Device.updateErr_none_iff _).mp hsucc
    simp [Device.updateSpec, Device.errF, hx, pyIter, ht, ha]
  · intro hx
    simp [Device.updateSpec, Device.errF, hx]
  · intro xs hx hsucc
    obtain ⟨ht, ha, he, hm, hms, hw⟩ := (Device.updateErr_none_iff _).mp hsucc
    simp [Device.updateSpec, Device.warnF, hx, pyIter, ht, ha, he, hm, hms]
  · intro hx
    simp [Device.updateSpec, Device.warnF, hx]
  · intro xs ms hx hne hmap hsucc
    obtain ⟨ht, ha, he, hm, hms, hw⟩ := (Device.updateErr_none_iff _).mp hsucc
    have hlen : xs.length > 0 := List.length_pos.mpr hne
    simp only [Device.updateSpec, Device.modesF, hx]
    simp only [pyIter, hmap]
    simp [ht, ha, he, hm, hlen]
  · intro hx
    simp [Device.updateSpec, Device.modesF, hx, pyIter]
  · intro hx
    simp [Device.updateSpec, Device.modesF, hx]

/-- C3 witness: instantiating the amended replace semantics — `{"errors": []}`
replaces a nonempty prior error list by the empty list, and an absent
warnings key retains the prior warnings. -/
theorem C3_list_replace_amended_witness :
    (Device.update_data sampleDev ⟨[(API_ERRORS, Value.vlist [])]⟩).1.errors = [] ∧
    (Device.update_data sampleDev ⟨[(API_ERRORS, Value.vlist [])]⟩).1.warnings =
      sampleDev.warnings := by
  refine ⟨?_, ?_⟩
  · exact (C3_list_replace_amended sampleDev ⟨[(API_ERRORS, Value.vlist [])]⟩).1 []
      (by rfl) (by rfl)
  · exact (C3_list_replace_amended sampleDev
      ⟨[(API_ERRORS, Value.vlist [])]⟩).2.2.2.1 (by rfl)

/-- The spec scenario payload for AirQuality construction:
`{"meta": {"systemNumber": "1", "zoneNumber": "2"}, "name": null}` — note it
carries no device-id key. -/
def aqPayloadNoId : List (String × Value) :=
  [(API_META, Value.vdict
      [(API_SYSTEM_NUMBER, Value.vstr "1"), (API_ZONE_NUMBER, Value.vstr "2")]),
   (API_NAME, Value.vnull)]

/-- C7 counterexample: constructing an AirQuality from the spec's scenario
payload does not succeed with the claimed attributes — it raises `KeyError`,
because `Device.__init__` (device.py line 98) subscripts the device-id key,
which the payload lacks. -/
theorem C7_counterexample :
    AirQuality.init "inst1" "ws1" aqPayloadNoId = Except.error PyErr.keyError := by
  rfl

/-- The probe location stored under key `k` does not contain the
system-number key (device.py lines 116-124): the location key is absent from
the payload, or it holds a falsy value (which `device_data.get(k) or {}`
replaces by the empty dict), or it holds a mapping lacking the system-number
key — in each case the probe falls through to the next candidate. -/
def Device.probeMisses (d : List (String × Value)) (k : String) : Prop :=
  assocGet d k = none ∨
  (∃ v, assocGet d k = some v ∧ pyTruthy v = false) ∨
  (∃ mm, assocGet d k = some (Value.vdict mm) ∧
    assocGet mm API_SYSTEM_NUMBER = none)

theorem Device.sub_data_meta_misses (d : List (String × Value))
    (h : Device.probeMisses d API_META) :
    Device.sub_data d = Device.sub_data_from_config d := by
  unfold Device.probeMisses at h
  unfold Device.sub_data
  rcases h with h | ⟨v, hv, hfal⟩ | ⟨mm, hmm, hnone⟩
  · simp [h]
  · simp [hv, hfal, pyContainsKey, assocGet]
  · rcases mm with _ | ⟨p, rest⟩
    · simp [hmm, pyTruthy, pyContainsKey, assocGet]
    · simp [hmm, pyTruthy, pyContainsKey, hnone]

theorem Device.sub_data_from_config_misses (d : List (String × Value))
    (h : Device.probeMisses d API_CONFIG) :
    Device.sub_data_from_config d = Except.ok (Value.vdict d) := by
  unfold Device.probeMisses at h
  unfold Device.sub_data_from_config
  rcases h with h | ⟨v, hv, hfal⟩ | ⟨cc, hcc, hnone⟩
  · simp [h]
  · simp [hv, hfal, pyContainsKey, assocGet]
  · rcases cc with _ | ⟨p, rest⟩
    · simp [hcc, pyTruthy, pyContainsKey, assocGet]
    · simp [hcc, pyTruthy, pyContainsKey, hnone]

/-- C7 (amended): the probing of `system_number`/`zone_number` follows the
priority order meta sub-object, else config sub-object, else top-level, and
the first location containing the system-number key wins: a meta sub-object
holding it is returned; whenever the meta probe misses (key absent, falsy
value, or a mapping lacking the system-number key) a config sub-object
holding it is returned; and when both probes miss the top-level mapping is
returned.  On a payload that also carries the required device id,
construction from the scenario payload yields `system_number = 1`,
`zone_number = 2` and the defaulted name `"Air Quality 1:2"`. -/
theorem C7_airquality_construction_amended :
    (∀ (d : List (String × Value)) (mm : List (String × Value)),
        assocGet d API_META = some (Value.vdict mm) →
        (assocGet mm API_SYSTEM_NUMBER).isSome = true →
        Device.sub_data d = Except.ok (Value.vdict mm)) ∧
    (∀ (d : List (String × Value)) (cc : List (String × Value)),
        Device.probeMisses d API_META →
        assocGet d API_CONFIG = some (Value.vdict cc) →
        (assocGet cc API_SYSTEM_NUMBER).isSome = true →
        Device.sub_data d = Except.ok (Value.vdict cc)) ∧
    (∀ d : List (String × Value),
        Device.probeMisses d API_META → Device.probeMisses d API_CONFIG →
        Device.sub_data d = Except.ok (Value.vdict d)) ∧
    ((AirQuality.init "inst1" "ws1"
        ((API_DEVICE_ID, Value.vstr "aq1") :: aqPayloadNoId)).map
      (fun res => (res.system_number, res.zone_number, res.dev.name)) =
      Except.ok (1, 2, "Air Quality 1:2")) := by
  refine ⟨?_, ?_, ?_, ?_⟩
  · intro d mm hmeta hsys
    unfold Device.sub_data
    rcases mm with _ | ⟨p, rest⟩
    · simp [assocGet] at hsys
    · simp [hmeta, pyTruthy, pyContainsKey, hsys]
  · intro d cc hmiss hconf hsys
    rw [Device.sub_data_meta_misses d hmiss]
    unfold Device.sub_data_from_config
    rcases cc with _ | ⟨p, rest⟩
    · simp [assocGet] at hsys
    · simp [hconf, pyTruthy, pyContainsKey, hsys]
  · intro d hmiss hconfmiss
    rw [Device.sub_data_meta_misses d hmiss,
        Device.sub_data_from_config_misses d hconfmiss]
  · rfl

/-- Payload whose meta sub-object is present but lacks the system-number key,
while the config sub-object holds it: the probe must fall through to config. -/
def probeMetaNoSys : List (String × Value) :=
  [(API_META, Value.vdict [(API_ZONE_NUMBER, Value.vstr "9")]),
   (API_CONFIG, Value.vdict
      [(API_SYSTEM_NUMBER, Value.vint 4), (API_ZONE_NUMBER, Value.vint 5)])]

/-- Payload whose meta value is null and whose config sub-object lacks the
system-number key: both probes miss and the top-level mapping wins. -/
def probeBothNoSys : List (String × Value) :=
  [(API_META, Value.vnull),
   (API_CONFIG, Value.vdict [(API_ZONE_NUMBER, Value.vint 7)]),
   (API_SYSTEM_NUMBER, Value.vint 3),
   (API_ZONE_NUMBER, Value.vint 8)]

/-- C7 witness: the scenario payload (meta wins), a payload whose present
meta sub-object lacks the system-number key (falls through to config), and a
payload where both probes miss (top-level fallback). -/
theorem C7_airquality_construction_amended_witness :
    Device.sub_data aqPayloadNoId =
      Except.ok (Value.vdict
        [(API_SYSTEM_NUMBER, Value.vstr "1"), (API_ZONE_NUMBER, Value.vstr "2")]) ∧
    Device.sub_data probeMetaNoSys =
      Except.ok (Value.vdict
        [(API_SYSTEM_NUMBER, Value.vint 4), (API_ZONE_NUMBER, Value.vint 5)]) ∧
    Device.sub_data probeBothNoSys = Except.ok (Value.vdict probeBothNoSys) := by
  refine ⟨?_, ?_, ?_⟩
  · exact C7_airquality_construction_amended.1 aqPayloadNoId
      [(API_SYSTEM_NUMBER, Value.vstr "1"), (API_ZONE_NUMBER, Value.vstr "2")]
      (by rfl) (by rfl)
  · exact C7_airquality_construction_amended.2.1 probeMetaNoSys
      [(API_SYSTEM_NUMBER, Value.vint 4), (API_ZONE_NUMBER, Value.vint 5)]
      (by unfold Device.probeMisses
          exact Or.inr (Or.inr
            ⟨[(API_ZONE_NUMBER, Value.vstr "9")], by rfl, by rfl⟩))
      (by rfl) (by rfl)
  · exact C7_airquality_construction_amended.2.2.1 probeBothNoSys
      (by unfold Device.probeMisses
          exact Or.inr (Or.inl ⟨Value.vnull, by rfl, by rfl⟩))
      (by unfold Device.probeMisses
          exact Or.inr (Or.inr
            ⟨[(API_ZONE_NUMBER, Value.vint 7)], by rfl, by rfl⟩))
